import Mathlib

/-
Verification of the SEKO Pooldose instant-value codec
(`src/pooldose/values/instant_values.py`).

The Python code is shallowly embedded: Python values are the inductive
`PyVal` (floats are modelled as exact rationals; the write-validation
tolerance of 1e-9 absorbs the difference between IEEE doubles and exact
arithmetic on every input considered here), Python exceptions are the
`Except PyErr` monad, and the mutable per-instance state (read cache and
the transport calls issued) is passed explicitly.  All dictionaries in
this API are JSON-derived and therefore string-keyed.
-/

namespace Pooldose

/-- A Python value as used by the instant-values codec. -/
inductive PyVal where
  | none
  | bool (b : Bool)
  | int (n : Int)
  | float (q : Rat)
  | str (s : String)
  | list (xs : List PyVal)
  | tuple (xs : List PyVal)
  | dict (kvs : List (String × PyVal))

/-- Python exception kinds that the embedded code can raise. -/
inductive PyErr where
  | keyError
  | typeError
  | attributeError
  | indexError
  | valueError
  | zeroDivisionError
  | notImplementedError
deriving DecidableEq

/-- Errors caught by the `except (KeyError, TypeError, AttributeError)` clause
of `InstantValues._get_value`. -/
def PyErr.caughtByGetValue : PyErr → Bool
  | .keyError => true
  | .typeError => true
  | .attributeError => true
  | _ => false

/-- Errors caught by `set_number`'s
`except (TypeError, ValueError, IndexError, KeyError, AttributeError)`. -/
def PyErr.caughtBySetNumber : PyErr → Bool
  | .keyError => true
  | .typeError => true
  | .attributeError => true
  | .indexError => true
  | .valueError => true
  | _ => false

/-- Errors caught by `set_switch`'s and `set_select`'s
`except (KeyError, TypeError, AttributeError, ValueError)`. -/
def PyErr.caughtBySetSwitchSelect : PyErr → Bool
  | .keyError => true
  | .typeError => true
  | .attributeError => true
  | .valueError => true
  | _ => false

/-- The result monad for embedded Python expressions. -/
abbrev PyM (α : Type) : Type := Except PyErr α

namespace PyVal

/-- Python truthiness (`bool(x)` / `if x:`) for the builtin shapes we model. -/
def pyTruthy : PyVal → Bool
  | .none => false
  | .bool b => b
  | .int n => n != 0
  | .float q => q != 0
  | .str s => s != ""
  | .list xs => !xs.isEmpty
  | .tuple xs => !xs.isEmpty
  | .dict kvs => !kvs.isEmpty

/-- `x is None`. -/
def isNone : PyVal → Bool
  | .none => true
  | _ => false

/-- Numeric view: Python treats `bool` as a subtype of `int`. -/
def numQ : PyVal → Option Rat
  | .bool b => some (if b then 1 else 0)
  | .int n => some (n : Rat)
  | .float q => some q
  | _ => Option.none

/-- `isinstance(x, (int, float))` (`bool` counts, being an `int` subclass). -/
def isNumeric : PyVal → Bool
  | .bool _ => true
  | .int _ => true
  | .float _ => true
  | _ => false

/-- `isinstance(x, float)`. -/
def isFloat : PyVal → Bool
  | .float _ => true
  | _ => false

/-- `isinstance(x, bool)`. -/
def isBool : PyVal → Bool
  | .bool _ => true
  | _ => false

/-- `isinstance(x, str)`. -/
def isStr : PyVal → Bool
  | .str _ => true
  | _ => false

/-- `isinstance(x, dict)`. -/
def isDict : PyVal → Bool
  | .dict _ => true
  | _ => false

/-- `isinstance(x, (list, tuple))`. -/
def isListOrTuple : PyVal → Bool
  | .list _ => true
  | .tuple _ => true
  | _ => false

end PyVal

mutual

/-- Python `==` on the modelled values.  Numbers (including `bool`) compare by
numeric value; lists/tuples compare elementwise; dicts are compared
entry-by-entry in order (an approximation of Python's order-insensitive dict
equality — no code path modelled here ever compares two dicts with `==`). -/
def pyEqB : PyVal → PyVal → Bool
  | .str a, .str b => a == b
  | .none, .none => true
  | .list xs, .list ys => pyEqListB xs ys
  | .tuple xs, .tuple ys => pyEqListB xs ys
  | .dict xs, .dict ys => pyEqKVB xs ys
  | a, b =>
    match a.numQ, b.numQ with
    | some x, some y => x == y
    | _, _ => false

/-- Elementwise Python `==` on value lists. -/
def pyEqListB : List PyVal → List PyVal → Bool
  | [], [] => true
  | x :: xs, y :: ys => pyEqB x y && pyEqListB xs ys
  | _, _ => false

/-- Entrywise Python `==` on dict entry lists. -/
def pyEqKVB : List (String × PyVal) → List (String × PyVal) → Bool
  | [], [] => true
  | (k, x) :: xs, (l, y) :: ys => k == l && pyEqB x y && pyEqKVB xs ys
  | _, _ => false

end

/-- Python `str(x)`.  Exact for `None`, booleans, ints and strings — the only
shapes any modelled code path stringifies; float and container renderings are
abstract placeholders (no claim depends on them). -/
def pyStr : PyVal → String
  | .none => "None"
  | .bool b => if b then "True" else "False"
  | .int n => toString n
  | .float q => toString q
  | .str s => s
  | .list _ => "<list>"
  | .tuple _ => "<tuple>"
  | .dict _ => "<dict>"

/-- A JSON-derived (string-keyed, insertion-ordered) Python dict. -/
abbrev PyDict : Type := List (String × PyVal)

/-- First-match association-list lookup (dict keys are unique in Python). -/
def pdGet : PyDict → String → Option PyVal
  | [], _ => Option.none
  | (k, v) :: kvs, key => if k = key then some v else pdGet kvs key

/-- Method call `v.get(key, dflt)`: `AttributeError` unless `v` is a dict. -/
def dictGetD (v : PyVal) (key : String) (dflt : PyVal) : PyM PyVal :=
  match v with
  | .dict kvs => .ok ((pdGet kvs key).getD dflt)
  | _ => .error .attributeError

/-- Method call `v.get(key, dflt)` where the key is itself a Python value.
Unhashable keys (lists, dicts) raise `TypeError`; any other non-string key is
simply absent from a string-keyed dict. -/
def dictGetKeyD (v : PyVal) (key : PyVal) (dflt : PyVal) : PyM PyVal :=
  match v with
  | .dict kvs =>
    match key with
    | .str s => .ok ((pdGet kvs s).getD dflt)
    | .list _ => .error .typeError
    | .dict _ => .error .typeError
    | _ => .ok dflt
  | _ => .error .attributeError

/-- Method call `v.items()`: `AttributeError` unless `v` is a dict. -/
def dictItems (v : PyVal) : PyM PyDict :=
  match v with
  | .dict kvs => .ok kvs
  | _ => .error .attributeError

/-- Subscript `v[key]` with a string key. -/
def getItemStr (v : PyVal) (key : String) : PyM PyVal :=
  match v with
  | .dict kvs =>
    match pdGet kvs key with
    | some w => .ok w
    | Option.none => .error .keyError
  | _ => .error .typeError

/-- Subscript `v[key]` with an arbitrary Python value as key. -/
def getItemKey (v : PyVal) (key : PyVal) : PyM PyVal :=
  match v with
  | .dict kvs =>
    match key with
    | .str s =>
      match pdGet kvs s with
      | some w => .ok w
      | Option.none => .error .keyError
    | .list _ => .error .typeError
    | .dict _ => .error .typeError
    | _ => .error .keyError
  | _ => .error .typeError

/-- Subscript `v[0]` (the only integer subscript in the source: `units[0]`).
Sequences yield their first element or `IndexError`; a string-keyed dict has
no integer key, hence `KeyError`; other shapes are not subscriptable. -/
def getItemZero (v : PyVal) : PyM PyVal :=
  match v with
  | .list (x :: _) => .ok x
  | .list [] => .error .indexError
  | .tuple (x :: _) => .ok x
  | .tuple [] => .error .indexError
  | .str s =>
    match s.data with
    | c :: _ => .ok (.str (String.mk [c]))
    | [] => .error .indexError
  | .dict _ => .error .keyError
  | _ => .error .typeError

/-- ASCII lower-casing of one character (Python `str.lower` restricted to
the ASCII marker strings this codec compares). -/
def lowerChar (c : Char) : Char :=
  if 'A' ≤ c ∧ c ≤ 'Z' then Char.ofNat (c.toNat + 32) else c

/-- ASCII upper-casing of one character. -/
def upperChar (c : Char) : Char :=
  if 'a' ≤ c ∧ c ≤ 'z' then Char.ofNat (c.toNat - 32) else c

/-- `s.lower()` (ASCII). -/
def strLower (s : String) : String := String.mk (s.data.map lowerChar)

/-- `s.upper()` (ASCII). -/
def strUpper (s : String) : String := String.mk (s.data.map upperChar)

/-- Digit-string accumulator for `int(...)`. -/
def digitsToNat (acc : Nat) : List Char → Option Nat
  | [] => some acc
  | c :: cs =>
    if '0' ≤ c ∧ c ≤ '9' then digitsToNat (acc * 10 + (c.toNat - '0'.toNat)) cs
    else Option.none

/-- Python `int(s)` for plain (optionally negated) digit strings; whitespace
stripping and underscore grouping are not modelled — option indices are plain
digits. -/
def parseInt (s : String) : Option Int :=
  match s.data with
  | [] => Option.none
  | '-' :: cs =>
    if cs.isEmpty then Option.none
    else (digitsToNat 0 cs).map (fun n => -(n : Int))
  | cs => (digitsToNat 0 cs).map (fun n => (n : Int))

/-- `needle` is a prefix of `hay` (character lists). -/
def isPfxCh : List Char → List Char → Bool
  | [], _ => true
  | _ :: _, [] => false
  | a :: as, b :: bs => a == b && isPfxCh as bs

/-- `needle` occurs as a contiguous substring of `hay` (character lists). -/
def isInfixCh (needle : List Char) : List Char → Bool
  | [] => needle.isEmpty
  | c :: rest => isPfxCh needle (c :: rest) || isInfixCh needle rest

/-- Python `item in container`.  Dict membership is key membership; string
membership is the substring test; lists/tuples use elementwise `==`; other
containers (and unhashable dict keys) raise `TypeError`. -/
def pyInB (item : PyVal) (container : PyVal) : PyM Bool :=
  match container with
  | .dict kvs =>
    match item with
    | .str s => .ok (pdGet kvs s).isSome
    | .list _ => .error .typeError
    | .dict _ => .error .typeError
    | _ => .ok false
  | .str s =>
    match item with
    | .str t => .ok (isInfixCh t.data s.data)
    | _ => .error .typeError
  | .list xs => .ok (xs.any (fun x => pyEqB item x))
  | .tuple xs => .ok (xs.any (fun x => pyEqB item x))
  | _ => .error .typeError

/-- Method call `v.lower()`: `AttributeError` unless `v` is a string. -/
def pyLower (v : PyVal) : PyM String :=
  match v with
  | .str s => .ok (strLower s)
  | _ => .error .attributeError

/-- Integer view of `bool`/`int` (Python `bool` is an `int` subclass). -/
def pyIntLike : PyVal → Option Int
  | .bool b => some (if b then 1 else 0)
  | .int n => some n
  | _ => Option.none

/-- Python `a - b` on numbers: `int` stays `int`, any float makes a float. -/
def pySub (a b : PyVal) : PyM PyVal :=
  match pyIntLike a, pyIntLike b with
  | some x, some y => .ok (.int (x - y))
  | _, _ =>
    match a.numQ, b.numQ with
    | some x, some y => .ok (.float (x - y))
    | _, _ => .error .typeError

/-- Python `a + b` on numbers. -/
def pyAdd (a b : PyVal) : PyM PyVal :=
  match pyIntLike a, pyIntLike b with
  | some x, some y => .ok (.int (x + y))
  | _, _ =>
    match a.numQ, b.numQ with
    | some x, some y => .ok (.float (x + y))
    | _, _ => .error .typeError

/-- Python true division `a / b`: always a float on numbers. -/
def pyDiv (a b : PyVal) : PyM PyVal :=
  match a.numQ, b.numQ with
  | some x, some y =>
    if y = 0 then .error .zeroDivisionError else .ok (.float (x / y))
  | _, _ => .error .typeError

/-- Python `a <= b`: numeric comparison (bool as 0/1) or string comparison. -/
def pyLE (a b : PyVal) : PyM Bool :=
  match a.numQ, b.numQ with
  | some x, some y => .ok (decide (x ≤ y))
  | _, _ =>
    match a, b with
    | .str s, .str t => .ok (decide (s ≤ t))
    | _, _ => .error .typeError

/-- Python `a < b`. -/
def pyLT (a b : PyVal) : PyM Bool :=
  match a.numQ, b.numQ with
  | some x, some y => .ok (decide (x < y))
  | _, _ =>
    match a, b with
    | .str s, .str t => .ok (decide (s < t))
    | _, _ => .error .typeError

/-- Python `round` on a rational: round-half-to-even (banker's rounding). -/
def pyRoundQ (q : Rat) : Int :=
  let f : Int := ⌊q⌋
  let r : Rat := q - (f : Rat)
  if r < 1 / 2 then f
  else if 1 / 2 < r then f + 1
  else if f % 2 = 0 then f else f + 1

/-- Python `round(x)` with a single argument: returns an `int`. -/
def pyRound (v : PyVal) : PyM PyVal :=
  match v with
  | .float q => .ok (.int (pyRoundQ q))
  | .int n => .ok (.int n)
  | .bool b => .ok (.int (if b then 1 else 0))
  | _ => .error .typeError

/-- Python `abs(x)` on numbers. -/
def pyAbs (v : PyVal) : PyM PyVal :=
  match v with
  | .int n => .ok (.int (Int.natAbs n : Int))
  | .float q => .ok (.float |q|)
  | .bool b => .ok (.int (if b then 1 else 0))
  | _ => .error .typeError

/-- Python `int(s)` on a string: parse or `ValueError`. -/
def pyIntOfString (s : String) : PyM Int :=
  match parseInt s with
  | some n => .ok n
  | Option.none => .error .valueError

/-- The float literal `1e-9` from `set_number` (modelled exactly). -/
def epsilon : Rat := 1 / 1000000000

/-- The immutable fields of an `InstantValues` instance.  `pfix` embeds
`self._prefix` (the key prefix prepended to every device key). -/
structure IVCtx where
  deviceData : PyDict
  mapping : PyDict
  pfix : String
  deviceId : String

/-- One transport invocation `request_handler.set_value(device_id, key, value,
value_type)`. -/
structure WireWrite where
  deviceId : String
  key : String
  value : PyVal
  valueType : String

/-- The per-instance read cache `self._cache`, as a total lookup function. -/
abbrev Cache : Type := String → Option PyVal

/-- The mutable state of a run: the read cache, the transport calls issued in
order, and a counter of `_get_value` invocations (the side-effect counter the
spec's cache tests observe). -/
structure IVState where
  cache : Cache
  calls : List WireWrite
  derivs : Nat

/-- `self._cache[key] = v`. -/
def cacheInsert (c : Cache) (k : String) (v : PyVal) : Cache :=
  fun n => if n = k then some v else c n

/-- `self._cache.pop(key, None)`. -/
def cachePop (c : Cache) (k : String) : Cache :=
  fun n => if n = k then Option.none else c n

/-- The transport's `set_value`: its return value for a given call. -/
abbrev Handler : Type := WireWrite → PyVal

/-- `InstantValues._find_device_entry` (lines 151-170). -/
def findDeviceEntry (ctx : IVCtx) (name : String) : PyM PyVal :=
  let attributes := (pdGet ctx.mapping name).getD .none
  if !attributes.pyTruthy then .ok .none
  else
    match dictGetD attributes "key" (.str name) with
    | .error e => .error e
    | .ok device_key =>
      let full_device_key := ctx.pfix ++ pyStr device_key
      .ok ((pdGet ctx.deviceData full_device_key).getD .none)

/-- The conversion snippet shared verbatim by `_process_sensor_value`
(lines 224-227) and `_process_binary_sensor_value` (lines 244-247):
`if value is not None and "conversion" in attributes: ...`. -/
def applyConversion (value attributes : PyVal) : PyM PyVal :=
  if value.isNone then .ok value
  else
    match pyInB (.str "conversion") attributes with
    | .error e => .error e
    | .ok false => .ok value
    | .ok true =>
      match getItemStr attributes "conversion" with
      | .error e => .error e
      | .ok conversion =>
        if !conversion.isDict then .ok value
        else
          match pyInB (.str (pyStr value)) conversion with
          | .error e => .error e
          | .ok false => .ok value
          | .ok true => getItemKey conversion (.str (pyStr value))

/-- The unit computation of `_process_sensor_value` (lines 230-231):
`units = raw_entry.get("magnitude", [""])` and
`unit = units[0] if units and units[0].lower() not in ("undefined", "ph")
else None`. -/
def sensorUnit (raw : PyVal) : PyM PyVal :=
  match dictGetD raw "magnitude" (.list [.str ""]) with
  | .error e => .error e
  | .ok units =>
    if !units.pyTruthy then .ok .none
    else
      match getItemZero units with
      | .error e => .error e
      | .ok u0 =>
        match pyLower u0 with
        | .error e => .error e
        | .ok low =>
          if low != "undefined" && low != "ph" then getItemZero units
          else .ok .none

/-- `InstantValues._process_sensor_value` (lines 215-233). -/
def processSensorValue (raw attributes : PyVal) : PyM PyVal :=
  if !raw.isDict then .ok (.tuple [.none, .none])
  else
    match dictGetD raw "current" .none with
    | .error e => .error e
    | .ok value0 =>
      match applyConversion value0 attributes with
      | .error e => .error e
      | .ok value =>
        match sensorUnit raw with
        | .error e => .error e
        | .ok unit => .ok (.tuple [value, unit])

/-- The final string/bool coercion shared by `_process_binary_sensor_value`
(lines 250-253) and `_process_switch_value` (lines 270-273):
a string is true exactly when it upper-cases to `"O"`, anything else is
passed through `bool(...)`. -/
def coerceOF (value : PyVal) : PyVal :=
  match value with
  | .str s => .bool (strUpper s == "O")
  | v => .bool v.pyTruthy

/-- `InstantValues._process_binary_sensor_value` (lines 235-253). -/
def processBinarySensorValue (raw attributes : PyVal) : PyM PyVal :=
  if !raw.isDict then .ok .none
  else
    match dictGetD raw "current" .none with
    | .error e => .error e
    | .ok value0 =>
      match applyConversion value0 attributes with
      | .error e => .error e
      | .ok value => .ok (coerceOF value)

/-- `InstantValues._process_switch_value` (lines 255-273). -/
def processSwitchValue (raw : PyVal) : PyM PyVal :=
  if raw.isBool then .ok raw
  else if !raw.isDict then .ok .none
  else
    match dictGetD raw "current" .none with
    | .error e => .error e
    | .ok value =>
      if value.isNone then .ok .none
      else .ok (coerceOF value)

/-- The unit computation of `_process_number_value` (lines 297-298):
like the sensor one, but guarded by `isinstance(units, (list, tuple))` and
applying `str(...)` before `.lower()`. -/
def numberUnit (raw : PyVal) : PyM PyVal :=
  match dictGetD raw "magnitude" (.list [.str ""]) with
  | .error e => .error e
  | .ok units =>
    if !(units.isListOrTuple && units.pyTruthy) then .ok .none
    else
      match getItemZero units with
      | .error e => .error e
      | .ok u0 =>
        let low := strLower (pyStr u0)
        if low != "undefined" && low != "ph" then getItemZero units
        else .ok .none

/-- `InstantValues._process_number_value` (lines 275-300). -/
def processNumberValue (ctx : IVCtx) (raw : PyVal) (name : String) : PyM PyVal :=
  if !raw.isDict then .ok (.tuple [.none, .none, .none, .none, .none])
  else
    let attributes := (pdGet ctx.mapping name).getD (.dict [])
    match dictGetD attributes "field" (.str "current") with
    | .error e => .error e
    | .ok value_key =>
      match dictGetKeyD raw value_key .none with
      | .error e => .error e
      | .ok value =>
        match dictGetD raw "absMin" .none with
        | .error e => .error e
        | .ok abs_min0 =>
          match dictGetD raw "absMax" .none with
          | .error e => .error e
          | .ok abs_max0 =>
            match dictGetD raw "resolution" .none with
            | .error e => .error e
            | .ok resolution =>
              -- lines 291-294: minT/maxT bound splitting
              let bounds : PyM (PyVal × PyVal) :=
                if pyEqB value_key (.str "minT") && abs_max0.isNumeric then
                  match pyDiv abs_max0 (.int 2) with
                  | .error e => .error e
                  | .ok h => .ok (abs_min0, h)
                else if pyEqB value_key (.str "maxT") && abs_max0.isNumeric
                    && resolution.isNumeric then
                  match pyDiv abs_max0 (.int 2) with
                  | .error e => .error e
                  | .ok h =>
                    match pyAdd h resolution with
                    | .error e => .error e
                    | .ok m => .ok (m, abs_max0)
                else .ok (abs_min0, abs_max0)
              match bounds with
              | .error e => .error e
              | .ok (abs_min, abs_max) =>
                match numberUnit raw with
                | .error e => .error e
                | .ok unit =>
                  .ok (.tuple [value, unit, abs_min, abs_max, resolution])

/-- `InstantValues._process_select_value` (lines 302-328). -/
def processSelectValue (raw attributes : PyVal) : PyM PyVal :=
  if !raw.isDict then .ok .none
  else
    match dictGetD raw "current" .none with
    | .error e => .error e
    | .ok value =>
      match dictGetD attributes "options" (.dict []) with
      | .error e => .error e
      | .ok options =>
        match pyInB (.str (pyStr value)) options with
        | .error e => .error e
        | .ok true =>
          match dictGetD options (pyStr value) .none with
          | .error e => .error e
          | .ok value_text =>
            match pyInB (.str "conversion") attributes with
            | .error e => .error e
            | .ok true =>
              match getItemStr attributes "conversion" with
              | .error e => .error e
              | .ok conversion =>
                if !conversion.isDict then .ok value_text
                else
                  match pyInB value_text conversion with
                  | .error e => .error e
                  | .ok true => getItemKey conversion value_text
                  | .ok false => .ok value_text
            | .ok false => .ok value_text
        | .ok false =>
          match pyInB (.str "conversion") attributes with
          | .error e => .error e
          | .ok true =>
            match getItemStr attributes "conversion" with
            | .error e => .error e
            | .ok conversion =>
              if !conversion.isDict then .ok value
              else
                match pyInB (.str (pyStr value)) conversion with
                | .error e => .error e
                | .ok true => getItemKey conversion (.str (pyStr value))
                | .ok false => .ok value
          | .ok false => .ok value

/-- The body of `InstantValues._get_value` (lines 177-209), before the
`except` clause. -/
def getValueBody (ctx : IVCtx) (name : String) : PyM PyVal :=
  let attributes := (pdGet ctx.mapping name).getD .none
  if !attributes.pyTruthy then .ok .none
  else
    match findDeviceEntry ctx name with
    | .error e => .error e
    | .ok raw_entry =>
      if raw_entry.isNone then .ok .none
      else
        match dictGetD attributes "type" .none with
        | .error e => .error e
        | .ok entry_type =>
          if !entry_type.pyTruthy then .ok .none
          else if pyEqB entry_type (.str "sensor") then
            processSensorValue raw_entry attributes
          else if pyEqB entry_type (.str "binary_sensor") then
            processBinarySensorValue raw_entry attributes
          else if pyEqB entry_type (.str "switch") then
            processSwitchValue raw_entry
          else if pyEqB entry_type (.str "number") then
            processNumberValue ctx raw_entry name
          else if pyEqB entry_type (.str "select") then
            processSelectValue raw_entry attributes
          else .ok .none

/-- `InstantValues._get_value` (lines 172-213): the body above wrapped in
`except (KeyError, TypeError, AttributeError): return None`. -/
def getValue (ctx : IVCtx) (name : String) : PyM PyVal :=
  match getValueBody ctx name with
  | .ok v => .ok v
  | .error e => if e.caughtByGetValue then .ok .none else .error e

/-- `InstantValues.__getitem__` (lines 43-50), threading the cache and the
`_get_value`-invocation counter. -/
def getItemIV (ctx : IVCtx) (s : IVState) (key : String) : PyM PyVal × IVState :=
  match s.cache key with
  | some v => (.ok v, s)
  | Option.none =>
    let s1 : IVState := { s with derivs := s.derivs + 1 }
    match getValue ctx key with
    | .error e => (.error e, s1)
    | .ok v =>
      if v.isNone then (.ok v, s1)
      else (.ok v, { s1 with cache := cacheInsert s1.cache key v })

/-- `InstantValues.__setitem__` (lines 52-57): unconditionally raises
`NotImplementedError`; no transport call, no state change. -/
def setItemIV (s : IVState) (_key : String) (_value : PyVal) :
    PyM Unit × IVState :=
  (.error .notImplementedError, s)

/-- Python tuple unpacking `a, b, c, d, e = v`: exactly five elements or
`ValueError`; non-iterables raise `TypeError`. -/
def unpack5 (v : PyVal) : PyM (PyVal × PyVal × PyVal × PyVal × PyVal) :=
  match v with
  | .tuple [a, b, c, d, e] => .ok (a, b, c, d, e)
  | .list [a, b, c, d, e] => .ok (a, b, c, d, e)
  | .tuple _ => .error .valueError
  | .list _ => .error .valueError
  | .str s =>
    match s.data with
    | [a, b, c, d, e] =>
      .ok (.str (String.mk [a]), .str (String.mk [b]), .str (String.mk [c]),
           .str (String.mk [d]), .str (String.mk [e]))
    | _ => .error .valueError
  | .dict kvs =>
    match kvs with
    | [(a, _), (b, _), (c, _), (d, _), (e, _)] =>
      .ok (.str a, .str b, .str c, .str d, .str e)
    | _ => .error .valueError
  | _ => .error .typeError

/-- `val[0] if isinstance(val, tuple) else val`
(line 445 of `_get_corresponding_value`). -/
def tupleFirst (val : PyVal) : PyM PyVal :=
  match val with
  | .tuple (x :: _) => .ok x
  | .tuple [] => .error .indexError
  | v => .ok v

/-- The loop condition of `_get_corresponding_value` (line 443):
`v.get("type") == "number" and v.get("field") == corresponding_field and
v.get("key") == attributes.get("key")`, with Python short-circuiting. -/
def scanCheck (v attributes : PyVal) (corresponding_field : String) :
    PyM Bool :=
  match dictGetD v "type" .none with
  | .error e => .error e
  | .ok ty =>
    if !pyEqB ty (.str "number") then .ok false
    else
      match dictGetD v "field" .none with
      | .error e => .error e
      | .ok f =>
        if !pyEqB f (.str corresponding_field) then .ok false
        else
          match dictGetD v "key" .none with
          | .error e => .error e
          | .ok vk =>
            match dictGetD attributes "key" .none with
            | .error e => .error e
            | .ok ak => .ok (pyEqB vk ak)

/-- The `for k, v in self._mapping.items()` search of
`_get_corresponding_value` (lines 442-445): the first matching entry is read
through `self[k]` (which may populate the cache) and its first tuple
component returned; `Option.none` means the loop fell through. -/
def correspondingScan (ctx : IVCtx) (attributes : PyVal)
    (corresponding_field : String) :
    List (String × PyVal) → IVState → PyM (Option PyVal) × IVState
  | [], s => (.ok Option.none, s)
  | (k, v) :: rest, s =>
    match scanCheck v attributes corresponding_field with
    | .error e => (.error e, s)
    | .ok false => correspondingScan ctx attributes corresponding_field rest s
    | .ok true =>
      match getItemIV ctx s k with
      | (.error e, s') => (.error e, s')
      | (.ok val, s') =>
        match tupleFirst val with
        | .error e => (.error e, s')
        | .ok x => (.ok (some x), s')

/-- `InstantValues._get_corresponding_value` (lines 436-458). -/
def getCorrespondingValue (ctx : IVCtx) (name : String) (field : PyVal)
    (attributes : PyVal) (s : IVState) : PyM PyVal × IVState :=
  let corresponding_field :=
    if pyEqB field (.str "minT") then "maxT" else "minT"
  match correspondingScan ctx attributes corresponding_field ctx.mapping s with
  | (.error e, s') => (.error e, s')
  | (.ok (some x), s') => (.ok x, s')
  | (.ok Option.none, s') =>
    -- lines 446-458: fall back to the raw device entry
    match findDeviceEntry ctx name with
    | .error e => (.error e, s')
    | .ok raw_entry =>
      if raw_entry.isNone then (.ok .none, s')
      else
        match pyInB (.str corresponding_field) raw_entry with
        | .error e => (.error e, s')
        | .ok true =>
          match getItemStr raw_entry corresponding_field with
          | .error e => (.error e, s')
          | .ok x => (.ok x, s')
        | .ok false =>
          if corresponding_field = "minT" then
            match dictGetD raw_entry "absMin" .none with
            | .error e => (.error e, s')
            | .ok x => (.ok x, s')
          else if corresponding_field = "maxT" then
            match dictGetD raw_entry "absMax" .none with
            | .error e => (.error e, s')
            | .ok x => (.ok x, s')
          else (.ok .none, s')

/-- `if result: self._cache.pop(key, None)` followed by `return result`
(lines 371-373 / 392-394 / 429-431, identical in all three setters). -/
def finishWrite (result : PyVal) (key : String) (s : IVState) :
    PyM PyVal × IVState :=
  (.ok result,
   if result.pyTruthy then { s with cache := cachePop s.cache key } else s)

/-- The validation part of `set_number` (lines 342-352): tuple unpacking,
range check and float step-grid check.  `.ok false` means a validation
rejected the value. -/
def setNumberCheck (value current_info : PyVal) : PyM Bool :=
  match unpack5 current_info with
  | .error e => .error e
  | .ok (_, _, min_val, max_val, step) =>
    let rangeOk : PyM Bool :=
      if !min_val.isNone && !max_val.isNone then
        match pyLE min_val value with
        | .error e => .error e
        | .ok false => .ok false
        | .ok true => pyLE value max_val
      else .ok true
    match rangeOk with
    | .error e => .error e
    | .ok false => .ok false
    | .ok true =>
      if value.isFloat && step.pyTruthy && !min_val.isNone then
        match pySub value min_val with
        | .error e => .error e
        | .ok diff =>
          match pyDiv diff step with
          | .error e => .error e
          | .ok n =>
            match pyRound n with
            | .error e => .error e
            | .ok r =>
              match pySub r n with
              | .error e => .error e
              | .ok d =>
                match pyAbs d with
                | .error e => .error e
                | .ok a =>
                  match pyLT (.float epsilon) a with
                  | .error e => .error e
                  | .ok true => .ok false
                  | .ok false => .ok true
      else .ok true

/-- The `try` body of `set_number` (lines 341-373). -/
def setNumberTry (ctx : IVCtx) (handler : Handler) (key : String)
    (value current_info : PyVal) (s : IVState) : PyM PyVal × IVState :=
  match setNumberCheck value current_info with
  | .error e => (.error e, s)
  | .ok false => (.ok (.bool false), s)
  | .ok true =>
    let attributes := (pdGet ctx.mapping key).getD (.dict [])
    match dictGetD attributes "key" (.str key) with
    | .error e => (.error e, s)
    | .ok key_device =>
      let full_key := ctx.pfix ++ pyStr key_device
      match dictGetD attributes "field" .none with
      | .error e => (.error e, s)
      | .ok field =>
        if pyEqB field (.str "minT") || pyEqB field (.str "maxT") then
          match getCorrespondingValue ctx key field attributes s with
          | (.error e, s') => (.error e, s')
          | (.ok corresponding, s') =>
            let mm : PyVal × PyVal :=
              if pyEqB field (.str "minT") then (value, corresponding)
              else (corresponding, value)
            if mm.1.isNone || mm.2.isNone then (.ok (.bool false), s')
            else
              let w : WireWrite :=
                ⟨ctx.deviceId, full_key, .list [mm.1, mm.2], "NUMBER"⟩
              finishWrite (handler w) key
                { s' with calls := s'.calls ++ [w] }
        else
          if !value.isNumeric then (.ok (.bool false), s)
          else
            let w : WireWrite := ⟨ctx.deviceId, full_key, value, "NUMBER"⟩
            finishWrite (handler w) key { s with calls := s.calls ++ [w] }

/-- `InstantValues.set_number` (lines 330-376).  The guard at line 332 and
the read at line 336 are outside the `try`, so their exceptions propagate. -/
def setNumber (ctx : IVCtx) (handler : Handler) (key : String) (value : PyVal)
    (s : IVState) : PyM PyVal × IVState :=
  match pdGet ctx.mapping key with
  | Option.none => (.ok (.bool false), s)
  | some entry =>
    match dictGetD entry "type" .none with
    | .error e => (.error e, s)
    | .ok ty =>
      if !pyEqB ty (.str "number") then (.ok (.bool false), s)
      else
        match getItemIV ctx s key with
        | (.error e, s1) => (.error e, s1)
        | (.ok current_info, s1) =>
          if current_info.isNone then (.ok (.bool false), s1)
          else
            match setNumberTry ctx handler key value current_info s1 with
            | (.ok r, s2) => (.ok r, s2)
            | (.error e, s2) =>
              if e.caughtBySetNumber then (.ok (.bool false), s2)
              else (.error e, s2)

/-- The `try` body of `set_switch` (lines 383-394). -/
def setSwitchTry (ctx : IVCtx) (handler : Handler) (key : String)
    (value : PyVal) (s : IVState) : PyM PyVal × IVState :=
  let attributes := (pdGet ctx.mapping key).getD (.dict [])
  match dictGetD attributes "key" (.str key) with
  | .error e => (.error e, s)
  | .ok key_device =>
    let full_key := ctx.pfix ++ pyStr key_device
    if !value.isBool then (.ok (.bool false), s)
    else
      let value_str : PyVal := if value.pyTruthy then .str "O" else .str "F"
      let w : WireWrite := ⟨ctx.deviceId, full_key, value_str, "STRING"⟩
      finishWrite (handler w) key { s with calls := s.calls ++ [w] }

/-- `InstantValues.set_switch` (lines 378-397). -/
def setSwitch (ctx : IVCtx) (handler : Handler) (key : String) (value : PyVal)
    (s : IVState) : PyM PyVal × IVState :=
  match pdGet ctx.mapping key with
  | Option.none => (.ok (.bool false), s)
  | some entry =>
    match dictGetD entry "type" .none with
    | .error e => (.error e, s)
    | .ok ty =>
      if !pyEqB ty (.str "switch") then (.ok (.bool false), s)
      else
        match setSwitchTry ctx handler key value s with
        | (.ok r, s') => (.ok r, s')
        | (.error e, s') =>
          if e.caughtBySetSwitchSelect then (.ok (.bool false), s')
          else (.error e, s')

/-- The list comprehension of `set_select` (line 408): each option label,
passed through `conversion` when it is a key there. -/
def convertLabels (conversion : PyVal) : PyDict → PyM (List PyVal)
  | [] => .ok []
  | (_, option_text) :: rest =>
    match pyInB option_text conversion with
    | .error e => .error e
    | .ok mem =>
      let head : PyM PyVal :=
        if mem then getItemKey conversion option_text else .ok option_text
      match head with
      | .error e => .error e
      | .ok v =>
        match convertLabels conversion rest with
        | .error e => .error e
        | .ok vs => .ok (v :: vs)

/-- The first resolution loop of `set_select` (lines 416-419): the first
option whose converted label equals the proposed value. -/
def findConvIndex (conversion value : PyVal) : PyDict → PyM (Option String)
  | [] => .ok Option.none
  | (option_key, option_text) :: rest =>
    match pyInB option_text conversion with
    | .error e => .error e
    | .ok mem =>
      let hit : PyM Bool :=
        if mem then
          match getItemKey conversion option_text with
          | .error e => .error e
          | .ok c => .ok (pyEqB c value)
        else .ok false
      match hit with
      | .error e => .error e
      | .ok true => .ok (some option_key)
      | .ok false => findConvIndex conversion value rest

/-- The second resolution loop of `set_select` (lines 421-424): the first
option whose label equals the proposed value directly. -/
def findLabelIndex (value : PyVal) : PyDict → Option String
  | [] => Option.none
  | (option_key, option_text) :: rest =>
    if pyEqB option_text value then some option_key
    else findLabelIndex value rest

/-- Lines 414-427 of `set_select`: resolve the device-side value.
`Option.none` is the `return False` of the inner `for ... else`. -/
def resolveDeviceValue (mapping_entry options conversion value : PyVal) :
    PyM (Option PyVal) :=
  match pyInB (.str "conversion") mapping_entry with
  | .error e => .error e
  | .ok hasConv =>
    match pyInB (.str "options") mapping_entry with
    | .error e => .error e
    | .ok hasOpts =>
      if hasConv && hasOpts then
        match dictItems options with
        | .error e => .error e
        | .ok items =>
          match findConvIndex conversion value items with
          | .error e => .error e
          | .ok (some option_key) =>
            match pyIntOfString option_key with
            | .error e => .error e
            | .ok n => .ok (some (.int n))
          | .ok Option.none =>
            match findLabelIndex value items with
            | some option_key =>
              match pyIntOfString option_key with
              | .error e => .error e
              | .ok n => .ok (some (.int n))
            | Option.none => .ok Option.none
      else .ok (some value)

/-- The `try` body of `set_select` (lines 404-431). -/
def setSelectTry (ctx : IVCtx) (handler : Handler) (key : String)
    (value : PyVal) (s : IVState) : PyM PyVal × IVState :=
  let mapping_entry := (pdGet ctx.mapping key).getD .none
  match dictGetD mapping_entry "options" (.dict []) with
  | .error e => (.error e, s)
  | .ok options =>
    match dictGetD mapping_entry "conversion" (.dict []) with
    | .error e => (.error e, s)
    | .ok conversion =>
      match dictItems options with
      | .error e => (.error e, s)
      | .ok optItems =>
        match convertLabels conversion optItems with
        | .error e => (.error e, s)
        | .ok valid_values =>
          if !valid_values.any (fun x => pyEqB x value) then
            (.ok (.bool false), s)
          else
            match dictGetD mapping_entry "key" (.str key) with
            | .error e => (.error e, s)
            | .ok key_device =>
              let full_key := ctx.pfix ++ pyStr key_device
              match resolveDeviceValue mapping_entry options conversion value with
              | .error e => (.error e, s)
              | .ok Option.none => (.ok (.bool false), s)
              | .ok (some device_value) =>
                let w : WireWrite :=
                  ⟨ctx.deviceId, full_key, device_value, "NUMBER"⟩
                finishWrite (handler w) key { s with calls := s.calls ++ [w] }

/-- `InstantValues.set_select` (lines 399-434). -/
def setSelect (ctx : IVCtx) (handler : Handler) (key : String) (value : PyVal)
    (s : IVState) : PyM PyVal × IVState :=
  match pdGet ctx.mapping key with
  | Option.none => (.ok (.bool false), s)
  | some entry =>
    match dictGetD entry "type" .none with
    | .error e => (.error e, s)
    | .ok ty =>
      if !pyEqB ty (.str "select") then (.ok (.bool false), s)
      else
        match setSelectTry ctx handler key value s with
        | (.ok r, s') => (.ok r, s')
        | (.error e, s') =>
          if e.caughtBySetSwitchSelect then (.ok (.bool false), s')
          else (.error e, s')

/-- A concrete fixture for C3: two sensors (pH-tagged and °C-tagged) and a
pH-tagged number entry. -/
def ctxC3 : IVCtx := ⟨
  [("P_w1", .dict [("current", .float 7.2),
     ("magnitude", .list [.str "pH", .str "X"])]),
   ("P_w2", .dict [("current", .float 27.5),
     ("magnitude", .list [.str "°C", .str "CDEG"])]),
   ("P_w3", .dict [("current", .float 7.0), ("absMin", .float 6.0),
     ("absMax", .float 8.0), ("resolution", .float 0.1),
     ("magnitude", .list [.str "PH"])])],
  [("ph", .dict [("type", .str "sensor"), ("key", .str "w1")]),
   ("temperature", .dict [("type", .str "sensor"), ("key", .str "w2")]),
   ("target_ph", .dict [("type", .str "number"), ("key", .str "w3")])],
  "P_", "DEV"⟩

/-- A concrete fixture for C6: binary sensors whose raw records carry a
string `"o"`, a boolean, no `current` field at all, a string rewritten by a
conversion table (`"F"` converts to `"O"`), a string missing from its
conversion table, and a boolean missing from its conversion table. -/
def ctxC6 : IVCtx := ⟨
  [("P_w1", .dict [("current", .str "o")]),
   ("P_w2", .dict [("current", .bool true)]),
   ("P_w3", .dict [("other", .int 1)]),
   ("P_w4", .dict [("current", .str "F")]),
   ("P_w5", .dict [("current", .str "x")])],
  [("a1", .dict [("type", .str "binary_sensor"), ("key", .str "w1")]),
   ("a2", .dict [("type", .str "binary_sensor"), ("key", .str "w2")]),
   ("a3", .dict [("type", .str "binary_sensor"), ("key", .str "w3")]),
   ("a4", .dict [("type", .str "binary_sensor"), ("key", .str "w4"),
      ("conversion", .dict [("F", .str "O")])]),
   ("a5", .dict [("type", .str "binary_sensor"), ("key", .str "w5"),
      ("conversion", .dict [("zzz", .str "O")])]),
   ("a6", .dict [("type", .str "binary_sensor"), ("key", .str "w2"),
      ("conversion", .dict [("nope", .str "O")])])],
  "P_", "DEV"⟩

/-- String-to-string association-list lookup (for option/conversion tables
whose values are all strings). -/
def sGet : List (String × String) → String → Option String
  | [], _ => Option.none
  | (k, v) :: kvs, key => if k = key then some v else sGet kvs key

/-- Embed a string-valued table as a Python dict. -/
def mapStrDict (xs : List (String × String)) : PyDict :=
  xs.map (fun p => (p.1, PyVal.str p.2))

/-- A concrete fixture for C4: the spec's water-meter-unit example. -/
def ctxC4 : IVCtx := ⟨
  [("P_wsel", .dict [("current", .str "1")])],
  [("water_unit", .dict [("type", .str "select"),
     ("key", .str "wsel"),
     ("options", .dict [("0", .str "LITER_LABEL"), ("1", .str "M3_LABEL")]),
     ("conversion", .dict [("LITER_LABEL", .str "L"),
       ("M3_LABEL", .str "m³")])])],
  "P_", "DEV"⟩

/-- A concrete fixture for C1: a number entry with cached metadata
minimum 6.0, maximum 8.0, resolution 0.1. -/
def ctxC1 : IVCtx :=
  ⟨[], [("target_ph", .dict [("type", .str "number"), ("key", .str "w3")])],
   "P_", "DEV"⟩

/-- The read cache holding the decoded number tuple for `ctxC1`. -/
def sC1 : IVState :=
  ⟨fun n => if n = "target_ph"
    then some (.tuple [.float 7.0, .none, .float 6.0, .float 8.0,
      .float 0.1])
    else Option.none, [], 0⟩

/-- A concrete fixture for the C1 counterexample: resolution 0.3, so the
integer 7 is NOT on the grid from 6.0. -/
def ctxC1b : IVCtx :=
  ⟨[], [("t", .dict [("type", .str "number"), ("key", .str "w9")])],
   "P_", "DEV"⟩

/-- Cached metadata minimum 6.0, maximum 8.0, resolution 0.3. -/
def sC1b : IVState :=
  ⟨fun n => if n = "t"
    then some (.tuple [.float 6.9, .none, .float 6.0, .float 8.0,
      .float 0.3])
    else Option.none, [], 0⟩

/-- A paired-bound number mapping entry with field selector `fld`. -/
def entT (dk fld : String) : PyDict :=
  [("type", .str "number"), ("key", .str dk), ("field", .str fld)]

/-- A raw record carrying both bounds and the absolute range. -/
def rawT (mnT mxT aMin aMax res : Rat) : PyDict :=
  [("minT", .float mnT), ("maxT", .float mxT), ("absMin", .float aMin),
   ("absMax", .float aMax), ("resolution", .float res)]

/-- A raw record without the `maxT` field (for the raw-snapshot fallback
chain). -/
def rawTNoMax (mnT aMin aMax res : Rat) : PyDict :=
  [("minT", .float mnT), ("absMin", .float aMin),
   ("absMax", .float aMax), ("resolution", .float res)]

/-- A raw record with neither `maxT` nor `absMax` (the sibling bound is
unresolvable). -/
def rawTBare (mnT aMin res : Rat) : PyDict :=
  [("minT", .float mnT), ("absMin", .float aMin),
   ("resolution", .float res)]

/-- The cached minT tuple for the C7 fixture. -/
def tminC7 : PyVal :=
  .tuple [.float 6.5, .none, .float 0, .float 8, .float 0.1]

/-- The cached maxT tuple for the C7 fixture. -/
def tmaxC7 : PyVal :=
  .tuple [.float 8.1, .none, .float 8.1, .float 16, .float 0.1]

/-- A fully populated cache over the paired-bound mapping. -/
def sC7 : IVState :=
  ⟨fun n => if n = "temp_min" then some tminC7
    else if n = "temp_max" then some tmaxC7
    else Option.none, [], 0⟩

/-- The paired-bound context for the C7 fixture (raw snapshot unused: all
reads are cache hits). -/
def ctxC7 : IVCtx :=
  ⟨[], [("temp_min", .dict (entT "wt" "minT")),
        ("temp_max", .dict (entT "wt" "maxT"))], "P_", "DEV"⟩

/-- Every error this computation can produce falls in the set caught by
`_get_value`'s `except (KeyError, TypeError, AttributeError)` clause. -/
abbrev CaughtOnlyA {α : Type} (m : PyM α) : Prop :=
  ∀ e, m = .error e → e.caughtByGetValue = true

/-- A fixture for C8: a sensor and a number entry whose raw records are
malformed (plain strings), one entry with an unknown kind, one entry with no
raw record at all, plus data that is unused. -/
def ctxC8 : IVCtx := ⟨
  [("P_w1", .str "oops"), ("P_w2", .str "oops"), ("P_w3", .int 5)],
  [("s1", .dict [("type", .str "sensor"), ("key", .str "w1")]),
   ("n1", .dict [("type", .str "number"), ("key", .str "w2")]),
   ("u1", .dict [("type", .str "frob"), ("key", .str "w3")]),
   ("m1", .dict [("type", .str "sensor"), ("key", .str "nowhere")])],
  "P_", "DEV"⟩

/-
Theorems.
-/

/-- `is None` on each constructor (simp support for symbolic values). -/
@[simp] theorem isNone_noneC : (PyVal.none).isNone = true := rfl

/-- `is None` is false on booleans. -/
@[simp] theorem isNone_boolC (b : Bool) : (PyVal.bool b).isNone = false := rfl

/-- `is None` is false on ints. -/
@[simp] theorem isNone_intC (n : Int) : (PyVal.int n).isNone = false := rfl

/-- `is None` is false on floats. -/
@[simp] theorem isNone_floatC (q : Rat) : (PyVal.float q).isNone = false := rfl

/-- `is None` is false on strings. -/
@[simp] theorem isNone_strC (s : String) : (PyVal.str s).isNone = false := rfl

/-- `is None` is false on lists. -/
@[simp] theorem isNone_listC (xs : List PyVal) :
    (PyVal.list xs).isNone = false := rfl

/-- `is None` is false on tuples. -/
@[simp] theorem isNone_tupleC (xs : List PyVal) :
    (PyVal.tuple xs).isNone = false := rfl

/-- `is None` is false on dicts. -/
@[simp] theorem isNone_dictC (kvs : PyDict) :
    (PyVal.dict kvs).isNone = false := rfl

/-- C10: for every key and value, `__setitem__` raises `NotImplementedError`,
makes no transport call and changes no state: the state (cache and call list)
returned is exactly the state passed in. -/
theorem setitem_always_raises (s : IVState) (key : String) (value : PyVal) :
    setItemIV s key value = (.error .notImplementedError, s) := rfl

/-- C5: on a switch-kind mapping entry, `set_switch` encodes boolean true as
the wire string `"O"` and false as `"F"`, both with value-type tag `STRING`,
issuing exactly one transport call whose result is passed through (the cache
entry for the key is popped exactly when that result is truthy); any
non-boolean value is rejected with `False` and no transport call and no state
change. -/
theorem set_switch_encoding
    (ctx : IVCtx) (handler : Handler) (key : String) (entry : PyDict)
    (s : IVState)
    (hmap : pdGet ctx.mapping key = some (.dict entry))
    (hty : pdGet entry "type" = some (.str "switch")) :
    (∀ b : Bool,
      setSwitch ctx handler key (.bool b) s =
        (let w : WireWrite :=
          ⟨ctx.deviceId,
           ctx.pfix ++ pyStr ((pdGet entry "key").getD (.str key)),
           .str (if b then "O" else "F"), "STRING"⟩
         ((.ok (handler w)),
          if (handler w).pyTruthy
          then { s with calls := s.calls ++ [w], cache := cachePop s.cache key }
          else { s with calls := s.calls ++ [w] })))
    ∧ (∀ v : PyVal, v.isBool = false →
        setSwitch ctx handler key v s = (.ok (.bool false), s)) := by
  have hty' : (pdGet entry "type").getD PyVal.none = .str "switch" := by
    simp [hty]
  constructor
  · intro b
    cases b <;>
      simp [setSwitch, setSwitchTry, hmap, hty', dictGetD, pyEqB,
        PyVal.isBool, PyVal.pyTruthy, finishWrite]
  · intro v hv
    simp [setSwitch, setSwitchTry, hmap, hty', dictGetD, pyEqB, hv]

/-- Witness for C5 at a concrete scenario. -/
theorem set_switch_encoding_witness :
    (let ctx : IVCtx := ⟨[], [("pump", .dict [("type", .str "switch"),
        ("key", .str "w_1")])], "PRE_", "DEV"⟩
     let handler : Handler := fun _ => .bool true
     let s : IVState := ⟨fun _ => Option.none, [], 0⟩
     (setSwitch ctx handler "pump" (.bool true) s).1 = .ok (.bool true)
      ∧ (setSwitch ctx handler "pump" (.bool true) s).2.calls =
          [⟨"DEV", "PRE_w_1", .str "O", "STRING"⟩]
      ∧ (setSwitch ctx handler "pump" (.str "O") s).1 = .ok (.bool false)
      ∧ (setSwitch ctx handler "pump" (.str "O") s).2.calls = []) := by
  have h := set_switch_encoding
    ⟨[], [("pump", .dict [("type", .str "switch"), ("key", .str "w_1")])],
      "PRE_", "DEV"⟩
    (fun _ => .bool true) "pump"
    [("type", .str "switch"), ("key", .str "w_1")]
    ⟨fun _ => Option.none, [], 0⟩ (by rfl) (by rfl)
  refine ⟨?_, ?_, ?_, ?_⟩
  · rw [h.1 true]
  · rw [h.1 true]; rfl
  · rw [h.2 (.str "O") (by rfl)]
  · rw [h.2 (.str "O") (by rfl)]

/-- A dict whose lookup succeeds is nonempty. -/
theorem pdGet_isEmpty {kvs : PyDict} {k : String} {v : PyVal}
    (h : pdGet kvs k = some v) : kvs.isEmpty = false := by
  cases kvs with
  | nil => simp [pdGet] at h
  | cons a l => rfl

/-- When the mapping entry has no `conversion` key, the conversion snippet
passes the value through unchanged. -/
theorem applyConversion_no_conv {value : PyVal} {entry : PyDict}
    (h : pdGet entry "conversion" = Option.none) :
    applyConversion value (.dict entry) = .ok value := by
  unfold applyConversion
  cases hv : value.isNone <;> simp [pyInB, h, hv]

/-- The conversion snippet rewrites a non-None value whose string form is a
key of the entry's conversion dict. -/
theorem applyConversion_hit {value w : PyVal} {entry conv : PyDict}
    (hv : value.isNone = false)
    (hc : pdGet entry "conversion" = some (.dict conv))
    (hw : pdGet conv (pyStr value) = some w) :
    applyConversion value (.dict entry) = .ok w := by
  unfold applyConversion
  simp [pyInB, getItemStr, getItemKey, hv, hc, hw, PyVal.isDict]

/-- The conversion snippet passes a value through when its string form is
not a key of the entry's conversion dict. -/
theorem applyConversion_miss {value : PyVal} {entry conv : PyDict}
    (hc : pdGet entry "conversion" = some (.dict conv))
    (hw : pdGet conv (pyStr value) = Option.none) :
    applyConversion value (.dict entry) = .ok value := by
  unfold applyConversion
  cases hv : value.isNone <;>
    simp [pyInB, getItemStr, hv, hc, hw, PyVal.isDict]

/-- C3 (amended): for sensor- and number-kind entries, the decoded unit is
the first `magnitude` entry unless that entry case-insensitively EQUALS
`"ph"` or `"undefined"` (exact equality, not a prefix test), in which case it
is none — regardless of the rest of the magnitude list. -/
theorem magnitude_unit_rule :
    (∀ (ctx : IVCtx) (name dk : String) (entry raw : PyDict)
      (u : String) (rest : List PyVal),
      pdGet ctx.mapping name = some (.dict entry) →
      pdGet entry "type" = some (.str "sensor") →
      pdGet entry "key" = some (.str dk) →
      pdGet entry "conversion" = Option.none →
      pdGet ctx.deviceData (ctx.pfix ++ dk) = some (.dict raw) →
      pdGet raw "magnitude" = some (.list (.str u :: rest)) →
      getValue ctx name =
        .ok (.tuple [(pdGet raw "current").getD .none,
          if strLower u != "undefined" && strLower u != "ph"
          then .str u else .none]))
    ∧ (∀ (ctx : IVCtx) (name dk : String) (entry raw : PyDict)
      (u : String) (rest : List PyVal),
      pdGet ctx.mapping name = some (.dict entry) →
      pdGet entry "type" = some (.str "number") →
      pdGet entry "key" = some (.str dk) →
      pdGet entry "field" = Option.none →
      pdGet ctx.deviceData (ctx.pfix ++ dk) = some (.dict raw) →
      pdGet raw "magnitude" = some (.list (.str u :: rest)) →
      getValue ctx name =
        .ok (.tuple [(pdGet raw "current").getD .none,
          (if strLower u != "undefined" && strLower u != "ph"
           then .str u else .none),
          (pdGet raw "absMin").getD .none,
          (pdGet raw "absMax").getD .none,
          (pdGet raw "resolution").getD .none])) := by
  constructor
  · intro ctx name dk entry raw u rest hmap hty hkey hconv hdata hmag
    have hne := pdGet_isEmpty hty
    simp [getValue, getValueBody, findDeviceEntry, processSensorValue,
      sensorUnit, applyConversion_no_conv hconv, dictGetD, getItemZero,
      pyLower, pyStr, pyEqB, hmap, hty, hkey, hdata, hmag, hne,
      PyVal.pyTruthy, PyVal.isNone, PyVal.isDict]
    by_cases hc : (¬strLower u = "undefined" ∧ ¬strLower u = "ph") <;> simp [hc]
  · intro ctx name dk entry raw u rest hmap hty hkey hfield hdata hmag
    have hne := pdGet_isEmpty hty
    simp [getValue, getValueBody, findDeviceEntry, processNumberValue,
      numberUnit, dictGetD, dictGetKeyD, getItemZero, pyLower, pyStr,
      pyEqB, hmap, hty, hkey, hfield, hdata, hmag, hne,
      PyVal.pyTruthy, PyVal.isNone, PyVal.isDict, PyVal.isListOrTuple]
    by_cases hc : (¬strLower u = "undefined" ∧ ¬strLower u = "ph") <;> simp [hc]

/-- Witness for C3: a pH-tagged sensor decodes with unit none, a °C sensor
keeps its unit, and the same rule applies to a number entry. -/
theorem magnitude_unit_rule_witness :
    getValue ctxC3 "ph" = .ok (.tuple [.float 7.2, .none])
      ∧ getValue ctxC3 "temperature" = .ok (.tuple [.float 27.5, .str "°C"])
      ∧ getValue ctxC3 "target_ph" = .ok (.tuple [.float 7.0, .none,
          .float 6.0, .float 8.0, .float 0.1]) := by
  refine ⟨?_, ?_, ?_⟩
  · rw [magnitude_unit_rule.1 ctxC3 "ph" "w1"
      [("type", .str "sensor"), ("key", .str "w1")]
      [("current", .float 7.2), ("magnitude", .list [.str "pH", .str "X"])]
      "pH" [.str "X"] rfl rfl rfl rfl rfl rfl]; simp [pdGet] <;> decide
  · rw [magnitude_unit_rule.1 ctxC3 "temperature" "w2"
      [("type", .str "sensor"), ("key", .str "w2")]
      [("current", .float 27.5), ("magnitude", .list [.str "°C", .str "CDEG"])]
      "°C" [.str "CDEG"] rfl rfl rfl rfl rfl rfl]; simp [pdGet] <;> decide
  · rw [magnitude_unit_rule.2 ctxC3 "target_ph" "w3"
      [("type", .str "number"), ("key", .str "w3")]
      [("current", .float 7.0), ("absMin", .float 6.0),
       ("absMax", .float 8.0), ("resolution", .float 0.1),
       ("magnitude", .list [.str "PH"])]
      "PH" [] rfl rfl rfl rfl rfl rfl]; simp [pdGet] <;> decide

/-- C3 counterexample: per the claim, a first magnitude entry that merely
STARTS with the pH marker ("pH_UNIT") would have to decode with unit none;
the code only suppresses exact (case-insensitive) matches, so the unit
"pH_UNIT" is reported. -/
theorem magnitude_unit_prefix_counterexample :
    (let ctx : IVCtx := ⟨
      [("P_w1", .dict [("current", .float 7.2),
         ("magnitude", .list [.str "pH_UNIT"])])],
      [("ph", .dict [("type", .str "sensor"), ("key", .str "w1")])],
      "P_", "DEV"⟩
     getValue ctx "ph" = .ok (.tuple [.float 7.2, .str "pH_UNIT"])
      ∧ isPfxCh "ph".data (strLower "pH_UNIT").data = true
      ∧ PyVal.str "pH_UNIT" ≠ PyVal.none) := by
  refine ⟨by rfl, by rfl, fun h => PyVal.noConfusion h⟩

/-- C6 (amended): for every binary_sensor-kind entry whose raw record is a
dict, a conversion table — when present — FIRST rewrites the current value
when its string form is a key there, and the (possibly converted) value is
then coerced; in particular where no conversion applies, a string current
decodes to true exactly when it case-insensitively equals `"O"` and false
otherwise, and a boolean current is returned as-is; a MISSING `current`
decodes to boolean false (`bool(None)`), not to the absent (null) signal. -/
theorem binary_sensor_decode
    (ctx : IVCtx) (name dk : String) (entry raw : PyDict)
    (hmap : pdGet ctx.mapping name = some (.dict entry))
    (hty : pdGet entry "type" = some (.str "binary_sensor"))
    (hkey : pdGet entry "key" = some (.str dk))
    (hdata : pdGet ctx.deviceData (ctx.pfix ++ dk) = some (.dict raw)) :
    (pdGet raw "current" = Option.none →
      getValue ctx name = .ok (.bool false))
    ∧ (∀ (conv : PyDict) (cv w : PyVal),
        pdGet entry "conversion" = some (.dict conv) →
        pdGet raw "current" = some cv → cv.isNone = false →
        pdGet conv (pyStr cv) = some w →
        getValue ctx name = .ok (coerceOF w))
    ∧ (∀ s : String, pdGet entry "conversion" = Option.none →
        pdGet raw "current" = some (.str s) →
        getValue ctx name = .ok (.bool (strUpper s == "O")))
    ∧ (∀ (conv : PyDict) (s : String),
        pdGet entry "conversion" = some (.dict conv) →
        pdGet conv s = Option.none →
        pdGet raw "current" = some (.str s) →
        getValue ctx name = .ok (.bool (strUpper s == "O")))
    ∧ (∀ b : Bool, pdGet entry "conversion" = Option.none →
        pdGet raw "current" = some (.bool b) →
        getValue ctx name = .ok (.bool b))
    ∧ (∀ (conv : PyDict) (b : Bool),
        pdGet entry "conversion" = some (.dict conv) →
        pdGet conv (pyStr (.bool b)) = Option.none →
        pdGet raw "current" = some (.bool b) →
        getValue ctx name = .ok (.bool b)) := by
  have hne := pdGet_isEmpty hty
  refine ⟨fun hcur => ?_,
          fun conv cv w hconv hcur hcvn hw => ?_,
          fun a hconv hcur => ?_,
          fun conv a hconv hw hcur => ?_,
          fun a hconv hcur => ?_,
          fun conv a hconv hw hcur => ?_⟩
  · have hac : applyConversion PyVal.none (.dict entry) = .ok PyVal.none :=
      rfl
    simp [getValue, getValueBody, findDeviceEntry, processBinarySensorValue,
      hac, coerceOF, dictGetD, pyStr, pyEqB, hmap, hty, hkey, hdata, hcur,
      hne, PyVal.pyTruthy, PyVal.isNone, PyVal.isDict]
  · simp [getValue, getValueBody, findDeviceEntry, processBinarySensorValue,
      applyConversion_hit hcvn hconv hw, dictGetD, pyStr, pyEqB,
      hmap, hty, hkey, hdata, hcur, hne,
      PyVal.pyTruthy, PyVal.isNone, PyVal.isDict]
  · simp [getValue, getValueBody, findDeviceEntry, processBinarySensorValue,
      applyConversion_no_conv hconv, coerceOF, dictGetD, pyStr, pyEqB,
      hmap, hty, hkey, hdata, hcur, hne,
      PyVal.pyTruthy, PyVal.isNone, PyVal.isDict]
  · have hw' : pdGet conv (pyStr (.str a)) = Option.none := by
      simpa [pyStr] using hw
    simp [getValue, getValueBody, findDeviceEntry, processBinarySensorValue,
      applyConversion_miss hconv hw', coerceOF, dictGetD, pyStr, pyEqB,
      hmap, hty, hkey, hdata, hcur, hne,
      PyVal.pyTruthy, PyVal.isNone, PyVal.isDict]
  · simp [getValue, getValueBody, findDeviceEntry, processBinarySensorValue,
      applyConversion_no_conv hconv, coerceOF, dictGetD, pyStr, pyEqB,
      hmap, hty, hkey, hdata, hcur, hne,
      PyVal.pyTruthy, PyVal.isNone, PyVal.isDict]
  · simp [getValue, getValueBody, findDeviceEntry, processBinarySensorValue,
      applyConversion_miss hconv hw, coerceOF, dictGetD, pyStr, pyEqB,
      hmap, hty, hkey, hdata, hcur, hne,
      PyVal.pyTruthy, PyVal.isNone, PyVal.isDict]

/-- Witness for C6 at the fixture: a plain `"o"`, a plain boolean, a missing
current, a current rewritten by `conversion` (`"F"` decodes true via
`{"F": "O"}`), a string missed by its conversion table, and a boolean missed
by its conversion table. -/
theorem binary_sensor_decode_witness :
    getValue ctxC6 "a1" = .ok (.bool true)
      ∧ getValue ctxC6 "a2" = .ok (.bool true)
      ∧ getValue ctxC6 "a3" = .ok (.bool false)
      ∧ getValue ctxC6 "a4" = .ok (.bool true)
      ∧ getValue ctxC6 "a5" = .ok (.bool false)
      ∧ getValue ctxC6 "a6" = .ok (.bool true) := by
  refine ⟨?_, ?_, ?_, ?_, ?_, ?_⟩
  · rw [(binary_sensor_decode ctxC6 "a1" "w1"
      [("type", .str "binary_sensor"), ("key", .str "w1")]
      [("current", .str "o")] rfl rfl rfl rfl).2.2.1 "o" rfl rfl]
    rfl
  · rw [(binary_sensor_decode ctxC6 "a2" "w2"
      [("type", .str "binary_sensor"), ("key", .str "w2")]
      [("current", .bool true)] rfl rfl rfl rfl).2.2.2.2.1 true rfl rfl]
  · rw [(binary_sensor_decode ctxC6 "a3" "w3"
      [("type", .str "binary_sensor"), ("key", .str "w3")]
      [("other", .int 1)] rfl rfl rfl rfl).1 rfl]
  · rw [(binary_sensor_decode ctxC6 "a4" "w4"
      [("type", .str "binary_sensor"), ("key", .str "w4"),
       ("conversion", .dict [("F", .str "O")])]
      [("current", .str "F")] rfl rfl rfl rfl).2.1
      [("F", .str "O")] (.str "F") (.str "O") rfl rfl rfl rfl]
    rfl
  · rw [(binary_sensor_decode ctxC6 "a5" "w5"
      [("type", .str "binary_sensor"), ("key", .str "w5"),
       ("conversion", .dict [("zzz", .str "O")])]
      [("current", .str "x")] rfl rfl rfl rfl).2.2.2.1
      [("zzz", .str "O")] "x" rfl rfl rfl]
    rfl
  · rw [(binary_sensor_decode ctxC6 "a6" "w2"
      [("type", .str "binary_sensor"), ("key", .str "w2"),
       ("conversion", .dict [("nope", .str "O")])]
      [("current", .bool true)] rfl rfl rfl rfl).2.2.2.2.2
      [("nope", .str "O")] true rfl rfl rfl]

/-- C6 counterexample: two failures of the claim as stated.  A missing
`current` decodes to `bool(None)` — boolean false, not the required absent
(null) signal; and on a conversion-carrying entry the raw string `"F"`
(which does not case-insensitively equal `"O"`) decodes to true, because the
conversion table rewrites it to `"O"` first. -/
theorem binary_sensor_missing_current_counterexample :
    (getValue ctxC6 "a3" = .ok (.bool false)
      ∧ PyVal.bool false ≠ PyVal.none)
    ∧ (getValue ctxC6 "a4" = .ok (.bool true)
      ∧ (strUpper "F" == "O") = false) := by
  exact ⟨⟨by rfl, fun h => PyVal.noConfusion h⟩, by rfl, by decide⟩

/-- C9 (amended): reading the same logical name twice without an intervening
write returns the identical result both times; when the first decode is
non-null the second read is a pure cache hit (identical state, no new
`_get_value` derivation), while a null first result is not cached and the
second read derives again (the derivation counter increments). -/
theorem read_read_idempotent (ctx : IVCtx) (s : IVState) (key : String) :
    ((getItemIV ctx (getItemIV ctx s key).2 key).1 =
      (getItemIV ctx s key).1)
    ∧ (∀ v : PyVal, (getItemIV ctx s key).1 = .ok v → v.isNone = false →
        getItemIV ctx (getItemIV ctx s key).2 key =
          ((getItemIV ctx s key).1, (getItemIV ctx s key).2))
    ∧ (s.cache key = Option.none → (getItemIV ctx s key).1 = .ok PyVal.none →
        (getItemIV ctx (getItemIV ctx s key).2 key).2.derivs =
          (getItemIV ctx s key).2.derivs + 1) := by
  cases hc : s.cache key with
  | some v =>
    refine ⟨?_, ?_, ?_⟩
    · simp [getItemIV, hc]
    · intro v0 hv0 _
      simp [getItemIV, hc] at hv0 ⊢
    · intro h
      simp [hc] at h
  | @none =>
    cases hg : getValue ctx key with
    | error e =>
      refine ⟨?_, ?_, ?_⟩
      · simp [getItemIV, hc, hg]
      · intro v0 hv0
        simp [getItemIV, hc, hg] at hv0
      · intro _ h
        simp [getItemIV, hc, hg] at h
    | ok v =>
      cases hn : v.isNone with
      | true =>
        refine ⟨?_, ?_, ?_⟩
        · simp [getItemIV, hc, hg, hn]
        · intro v0 hv0 hv0n
          simp [getItemIV, hc, hg, hn] at hv0
          subst hv0
          simp [hn] at hv0n
        · intro _ _
          simp [getItemIV, hc, hg, hn]
      | false =>
        refine ⟨?_, ?_, ?_⟩
        · simp [getItemIV, hc, hg, hn, cacheInsert]
        · intro v0 hv0 _
          simp [getItemIV, hc, hg, hn, cacheInsert] at hv0 ⊢
        · intro _ h
          simp [getItemIV, hc, hg, hn] at h
          subst h
          simp [PyVal.isNone] at hn

/-- Witness for C9: a cached sensor read (second read is a cache hit). -/
theorem read_read_idempotent_witness :
    (let s0 : IVState := ⟨fun _ => Option.none, [], 0⟩
     let first := getItemIV ctxC3 s0 "temperature"
     let second := getItemIV ctxC3 first.2 "temperature"
     first.1 = .ok (.tuple [.float 27.5, .str "°C"])
      ∧ second.1 = first.1 ∧ second.2.derivs = 1 ∧ first.2.derivs = 1) := by
  refine ⟨by rfl, ?_, by rfl, by rfl⟩
  exact (read_read_idempotent ctxC3 ⟨fun _ => Option.none, [], 0⟩
    "temperature").1

/-- C9 counterexample: for a logical name that decodes to the absent (null)
result, the second read is NOT served from the cache — the `_get_value`
derivation counter increments again, contradicting the claim's universal
"second read served from the per-name cache". -/
theorem read_read_recompute_counterexample :
    (let ctx : IVCtx := ⟨[], [], "P_", "D"⟩
     let s0 : IVState := ⟨fun _ => Option.none, [], 0⟩
     let first := getItemIV ctx s0 "x"
     let second := getItemIV ctx first.2 "x"
     first.1 = .ok PyVal.none ∧ first.2.derivs = 1
      ∧ second.2.derivs = 2) := by
  exact ⟨rfl, rfl, rfl⟩

/-- Unfolding `mapStrDict` one entry at a time. -/
theorem mapStrDict_cons (a b : String) (rest : List (String × String)) :
    mapStrDict ((a, b) :: rest) = (a, PyVal.str b) :: mapStrDict rest := rfl

/-- Lookup in an embedded string-valued table. -/
theorem pdGet_mapStrDict (xs : List (String × String)) (k : String) :
    pdGet (mapStrDict xs) k = Option.map PyVal.str (sGet xs k) := by
  induction xs with
  | nil => rfl
  | cons p rest ih =>
    cases p with
    | mk a b =>
      rw [mapStrDict_cons]
      simp only [pdGet, sGet]
      split <;> simp [ih]

/-- The `valid_values` comprehension over string-valued options and
conversion tables: each label, converted when possible. -/
theorem convertLabels_mapStrDict (cs os' : List (String × String)) :
    convertLabels (.dict (mapStrDict cs)) (mapStrDict os') =
      .ok (os'.map (fun p => PyVal.str ((sGet cs p.2).getD p.2))) := by
  induction os' with
  | nil => rfl
  | cons p rest ih =>
    cases p with
    | mk a b =>
      rw [mapStrDict_cons]
      simp only [convertLabels, pyInB, pdGet_mapStrDict, List.map, ih]
      cases h : sGet cs b with
      | some c => simp [h, getItemKey, pdGet_mapStrDict]
      | none => simp [h]

/-- The proposed display string is among the valid values when it is the
conversion of some option's label. -/
theorem mem_validValues {cs os' : List (String × String)}
    {idx label disp : String}
    (hmem : sGet os' idx = some label) (hdisp : sGet cs label = some disp) :
    (os'.map (fun p => PyVal.str ((sGet cs p.2).getD p.2))).any
      (fun x => pyEqB x (.str disp)) = true := by
  induction os' with
  | nil => simp [sGet] at hmem
  | cons p rest ih =>
    cases p with
    | mk a b =>
      simp only [sGet] at hmem
      by_cases ha : a = idx
      · subst ha
        simp at hmem
        subst hmem
        simp [hdisp, pyEqB]
      · simp [ha] at hmem
        simp [ih hmem]

/-- The first conversion-matching loop returns the claimed index when the
display string determines the index uniquely. -/
theorem findConvIndex_mapStrDict {cs os' : List (String × String)}
    {idx label disp : String}
    (hmem : sGet os' idx = some label) (hdisp : sGet cs label = some disp)
    (huniq : ∀ k l, (k, l) ∈ os' → sGet cs l = some disp → k = idx) :
    findConvIndex (.dict (mapStrDict cs)) (.str disp) (mapStrDict os') =
      .ok (some idx) := by
  induction os' with
  | nil => simp [sGet] at hmem
  | cons p rest ih =>
    cases p with
    | mk a b =>
      simp only [sGet] at hmem
      have hihq : ∀ k l, (k, l) ∈ rest → sGet cs l = some disp → k = idx :=
        fun k l hkl h => huniq k l (List.mem_cons.2 (Or.inr hkl)) h
      rw [mapStrDict_cons]
      simp only [findConvIndex, pyInB, pdGet_mapStrDict]
      cases hb : sGet cs b with
      | some c =>
        simp only [hb, Option.map_some, Option.isSome_some, if_true,
          getItemKey, pdGet_mapStrDict]
        by_cases hcd : c = disp
        · subst hcd
          have haidx : a = idx := huniq a b (List.mem_cons_self _ _) hb
          simp [pyEqB, haidx]
        · have hnext : sGet rest idx = some label := by
            by_cases ha : a = idx
            · subst ha
              simp at hmem
              subst hmem
              rw [hb] at hdisp
              cases hdisp
              exact absurd rfl hcd
            · simpa [ha] using hmem
          have hcb : (c == disp) = false := beq_eq_false_iff_ne.2 hcd
          simp [pyEqB, hcb, ih hnext hihq]
      | none =>
        have hnext : sGet rest idx = some label := by
          by_cases ha : a = idx
          · subst ha
            simp at hmem
            subst hmem
            rw [hb] at hdisp
            cases hdisp
          · simpa [ha] using hmem
        simp [hb, ih hnext hihq]

/-- C4 (amended): for a select-kind entry with string-valued `options` and
`conversion` tables, decoding a raw current index found in `options` yields
the converted display string, and writing that display string resolves to
the device-side integer index of the FIRST option whose converted label
equals it, sent with wire tag `NUMBER` — which is the same index as decoded
whenever the display string identifies the option uniquely (the `huniq`
hypothesis; it holds in particular when distinct options have distinct
display strings). -/
theorem select_roundtrip
    (ctx : IVCtx) (handler : Handler) (s : IVState) (name dk : String)
    (entry raw : PyDict) (os cs : List (String × String))
    (idx label disp : String) (nidx : Int)
    (hmap : pdGet ctx.mapping name = some (.dict entry))
    (hty : pdGet entry "type" = some (.str "select"))
    (hkey : pdGet entry "key" = some (.str dk))
    (hopts : pdGet entry "options" = some (.dict (mapStrDict os)))
    (hcnv : pdGet entry "conversion" = some (.dict (mapStrDict cs)))
    (hdata : pdGet ctx.deviceData (ctx.pfix ++ dk) = some (.dict raw))
    (hcur : pdGet raw "current" = some (.str idx))
    (hlab : sGet os idx = some label)
    (hdisp : sGet cs label = some disp)
    (huniq : ∀ k l, (k, l) ∈ os → sGet cs l = some disp → k = idx)
    (hidx : parseInt idx = some nidx) :
    getValue ctx name = .ok (.str disp)
    ∧ setSelect ctx handler name (.str disp) s =
      (let w : WireWrite := ⟨ctx.deviceId, ctx.pfix ++ dk, .int nidx, "NUMBER"⟩
       ((.ok (handler w)),
        if (handler w).pyTruthy
        then { s with calls := s.calls ++ [w], cache := cachePop s.cache name }
        else { s with calls := s.calls ++ [w] })) := by
  have hne := pdGet_isEmpty hty
  constructor
  · simp [getValue, getValueBody, findDeviceEntry, processSelectValue,
      dictGetD, getItemStr, getItemKey, pyInB, pyStr, pyEqB,
      pdGet_mapStrDict, hmap, hty, hkey, hopts, hcnv, hdata, hcur,
      hlab, hdisp, hne, PyVal.pyTruthy, PyVal.isNone, PyVal.isDict]
  · simp [setSelect, setSelectTry, resolveDeviceValue, dictGetD, dictItems,
      getItemStr, pyInB, pyStr, pyEqB, pyIntOfString,
      hmap, hty, hkey, hopts, hcnv, hidx, hne,
      convertLabels_mapStrDict, mem_validValues hlab hdisp,
      findConvIndex_mapStrDict hlab hdisp huniq,
      PyVal.pyTruthy, PyVal.isDict, finishWrite]

/-- Witness for C4 at the spec's example: decoding current="1" yields "m³"
and writing "m³" resolves back to device index 1. -/
theorem select_roundtrip_witness :
    (let s0 : IVState := ⟨fun _ => Option.none, [], 0⟩
     let handler : Handler := fun _ => .bool true
     getValue ctxC4 "water_unit" = .ok (.str "m³")
      ∧ (setSelect ctxC4 handler "water_unit" (.str "m³") s0).2.calls =
          [⟨"DEV", "P_wsel", .int 1, "NUMBER"⟩]
      ∧ (setSelect ctxC4 handler "water_unit" (.str "m³") s0).1 =
          .ok (.bool true)) := by
  have h := select_roundtrip ctxC4 (fun _ => .bool true)
    ⟨fun _ => Option.none, [], 0⟩ "water_unit" "wsel"
    [("type", .str "select"), ("key", .str "wsel"),
     ("options", .dict [("0", .str "LITER_LABEL"), ("1", .str "M3_LABEL")]),
     ("conversion", .dict [("LITER_LABEL", .str "L"),
       ("M3_LABEL", .str "m³")])]
    [("current", .str "1")]
    [("0", "LITER_LABEL"), ("1", "M3_LABEL")]
    [("LITER_LABEL", "L"), ("M3_LABEL", "m³")]
    "1" "M3_LABEL" "m³" 1
    rfl rfl rfl rfl rfl rfl rfl rfl rfl
    (by
      intro k l hkl h
      simp only [List.mem_cons, List.not_mem_nil, or_false,
        Prod.mk.injEq] at hkl
      rcases hkl with ⟨hk, hl⟩ | ⟨hk, hl⟩
      · subst hl; simp [sGet] at h
      · exact hk)
    rfl
  refine ⟨h.1, ?_, ?_⟩ <;> rw [h.2] <;> try rfl

/-- C4 counterexample: when two options convert to the SAME display string,
decoding current="1" yields that string but writing it resolves to index 0
(the first match), not back to 1 — refuting the claim's "resolves back to
the same device-side integer index" as universally stated. -/
theorem select_roundtrip_counterexample :
    (let ctx : IVCtx := ⟨
      [("P_wsel", .dict [("current", .str "1")])],
      [("u", .dict [("type", .str "select"),
         ("key", .str "wsel"),
         ("options", .dict [("0", .str "A_LABEL"), ("1", .str "B_LABEL")]),
         ("conversion", .dict [("A_LABEL", .str "L"),
           ("B_LABEL", .str "L")])])],
      "P_", "DEV"⟩
     let s0 : IVState := ⟨fun _ => Option.none, [], 0⟩
     let handler : Handler := fun _ => .bool true
     getValue ctx "u" = .ok (.str "L")
      ∧ (setSelect ctx handler "u" (.str "L") s0).2.calls =
          [⟨"DEV", "P_wsel", .int 0, "NUMBER"⟩]
      ∧ (0 : Int) ≠ 1) := by
  refine ⟨by rfl, by rfl, by decide⟩

/-- C1 (amended): for a number-kind entry whose decoded metadata carries
float minimum / maximum / resolution: a FLOAT proposed value is rejected
(returns `False`, no transport call, no state change) when outside
`[minimum, maximum]` or off the step grid (`n = (value - minimum) /
resolution` must round to itself within `1e-9`, with Python's half-to-even
rounding), and an in-range on-grid float is submitted with tag `NUMBER`;
however an INT proposed value bypasses the step-grid check entirely: any
in-range int is submitted, on-grid or not (the `isinstance(value, float)`
guard). -/
theorem set_number_validation
    (ctx : IVCtx) (handler : Handler) (s : IVState) (key dk : String)
    (entry : PyDict) (cv uv : PyVal) (mn mx st : Rat)
    (hmap : pdGet ctx.mapping key = some (.dict entry))
    (hty : pdGet entry "type" = some (.str "number"))
    (hkey : pdGet entry "key" = some (.str dk))
    (hfield : pdGet entry "field" = Option.none)
    (hcache : s.cache key =
      some (.tuple [cv, uv, .float mn, .float mx, .float st]))
    (hst : st ≠ 0) :
    (∀ q : Rat, ¬(mn ≤ q ∧ q ≤ mx) →
      setNumber ctx handler key (.float q) s = (.ok (.bool false), s))
    ∧ (∀ q : Rat, mn ≤ q → q ≤ mx →
        |((pyRoundQ ((q - mn) / st) : Rat)) - (q - mn) / st| > epsilon →
        setNumber ctx handler key (.float q) s = (.ok (.bool false), s))
    ∧ (∀ q : Rat, mn ≤ q → q ≤ mx →
        ¬(|((pyRoundQ ((q - mn) / st) : Rat)) - (q - mn) / st| > epsilon) →
        setNumber ctx handler key (.float q) s =
          (let w : WireWrite :=
            ⟨ctx.deviceId, ctx.pfix ++ dk, .float q, "NUMBER"⟩
           ((.ok (handler w)),
            if (handler w).pyTruthy
            then { s with calls := s.calls ++ [w],
                          cache := cachePop s.cache key }
            else { s with calls := s.calls ++ [w] })))
    ∧ (∀ n : Int, (mn : Rat) ≤ (n : Rat) → (n : Rat) ≤ mx →
        setNumber ctx handler key (.int n) s =
          (let w : WireWrite :=
            ⟨ctx.deviceId, ctx.pfix ++ dk, .int n, "NUMBER"⟩
           ((.ok (handler w)),
            if (handler w).pyTruthy
            then { s with calls := s.calls ++ [w],
                          cache := cachePop s.cache key }
            else { s with calls := s.calls ++ [w] }))) := by
  have hstT : (PyVal.float st).pyTruthy = true := by
    simp [PyVal.pyTruthy, hst]
  refine ⟨?_, ?_, ?_, ?_⟩
  · intro q hq
    by_cases h1 : mn ≤ q
    · have h2 : ¬ q ≤ mx := fun h2 => hq ⟨h1, h2⟩
      simp [setNumber, setNumberTry, setNumberCheck, getItemIV, unpack5,
        pyLE, PyVal.numQ, hmap, hty, hcache, h1, h2, dictGetD, pyEqB,
        PyVal.isNone]
    · simp [setNumber, setNumberTry, setNumberCheck, getItemIV, unpack5,
        pyLE, PyVal.numQ, hmap, hty, hcache, h1, dictGetD, pyEqB,
        PyVal.isNone]
  · intro q h1 h2 hgrid
    simp [setNumber, setNumberTry, setNumberCheck, getItemIV, unpack5,
      pyLE, pyLT, pySub, pyDiv, pyRound, pyAbs, pyIntLike, PyVal.numQ,
      hmap, hty, hcache, h1, h2, hst, hstT, hgrid, dictGetD, pyEqB,
      PyVal.isNone, PyVal.isFloat]
  · intro q h1 h2 hgrid
    simp [setNumber, setNumberTry, setNumberCheck, getItemIV, unpack5,
      pyLE, pyLT, pySub, pyDiv, pyRound, pyAbs, pyIntLike, PyVal.numQ,
      hmap, hty, hkey, hfield, hcache, h1, h2, hst, hstT, hgrid,
      dictGetD, pyEqB, pyStr, PyVal.isNone, PyVal.isFloat,
      PyVal.isNumeric, finishWrite]
  · intro n h1 h2
    simp [setNumber, setNumberTry, setNumberCheck, getItemIV, unpack5,
      pyLE, PyVal.numQ, hmap, hty, hkey, hfield, hcache, h1, h2,
      dictGetD, pyEqB, pyStr, PyVal.isNone, PyVal.isFloat,
      PyVal.isNumeric, finishWrite]

/-- Witness for C1 at the spec's boundary cases: 8.1 and 7.25 rejected with
no transport call, 8.0 and 7.2 accepted and submitted. -/
theorem set_number_validation_witness :
    (let handler : Handler := fun _ => .bool true
     setNumber ctxC1 handler "target_ph" (.float 8.1) sC1 =
        (.ok (.bool false), sC1)
      ∧ setNumber ctxC1 handler "target_ph" (.float 7.25) sC1 =
          (.ok (.bool false), sC1)
      ∧ (setNumber ctxC1 handler "target_ph" (.float 8.0) sC1).1 =
          .ok (.bool true)
      ∧ (setNumber ctxC1 handler "target_ph" (.float 8.0) sC1).2.calls =
          [⟨"DEV", "P_w3", .float 8.0, "NUMBER"⟩]
      ∧ (setNumber ctxC1 handler "target_ph" (.float 7.2) sC1).1 =
          .ok (.bool true)) := by
  have h := set_number_validation ctxC1 (fun _ => .bool true) sC1
    "target_ph" "w3" [("type", .str "number"), ("key", .str "w3")]
    (.float 7.0) .none 6.0 8.0 0.1
    rfl rfl rfl rfl rfl (by norm_num)
  refine ⟨?_, ?_, ?_, ?_, ?_⟩
  · exact h.1 8.1 (by norm_num)
  · exact h.2.1 7.25 (by norm_num) (by norm_num)
      (by norm_num [pyRoundQ, epsilon, abs_of_nonneg, abs_of_nonpos])
  · rw [h.2.2.1 8.0 (by norm_num) (by norm_num)
      (by norm_num [pyRoundQ, epsilon, abs_of_nonneg, abs_of_nonpos])]
  · rw [h.2.2.1 8.0 (by norm_num) (by norm_num)
      (by norm_num [pyRoundQ, epsilon, abs_of_nonneg, abs_of_nonpos])]
    rfl
  · rw [h.2.2.1 7.2 (by norm_num) (by norm_num)
      (by norm_num [pyRoundQ, epsilon, abs_of_nonneg, abs_of_nonpos])]

/-- C1 counterexample: the int 7 is off the 0.3 grid from 6.0 (the grid
quantity (7-6)/0.3 does not round to itself within 1e-9), yet `set_number`
accepts it and makes the transport call — the claim's universal step-grid
rejection fails for non-float values. -/
theorem set_number_int_gridbypass_counterexample :
    (let handler : Handler := fun _ => .bool true
     (setNumber ctxC1b handler "t" (.int 7) sC1b).1 = .ok (.bool true)
      ∧ (setNumber ctxC1b handler "t" (.int 7) sC1b).2.calls =
          [⟨"DEV", "P_w9", .int 7, "NUMBER"⟩]
      ∧ |((pyRoundQ (((7 : Rat) - 6) / 0.3) : Rat)) - ((7 : Rat) - 6) / 0.3|
          > epsilon) := by
  have h := set_number_validation ctxC1b (fun _ => .bool true) sC1b
    "t" "w9" [("type", .str "number"), ("key", .str "w9")]
    (.float 6.9) .none 6.0 8.0 0.3
    rfl rfl rfl rfl rfl (by norm_num)
  refine ⟨?_, ?_,
    by norm_num [pyRoundQ, epsilon, abs_of_nonneg, abs_of_nonpos]⟩
  · rw [h.2.2.2 7 (by norm_num) (by norm_num)]
  · rw [h.2.2.2 7 (by norm_num) (by norm_num)]
    rfl

/-- C2, scan-hit scenario: writing the minT entry when the sibling maxT
entry is in the mapping submits the ordered pair
`[proposed minT, sibling maxT current]` in one wire write. -/
theorem paired_write_scan
    (handler : Handler) (pfx dev dk nmin nmax : String)
    (mnT mxT aMin aMax res v : Rat) (s : IVState)
    (hne : nmin ≠ nmax)
    (hc1 : s.cache nmin = Option.none) (hc2 : s.cache nmax = Option.none)
    (hres : res ≠ 0)
    (hr1 : aMin ≤ v) (hr2 : v ≤ aMax / 2)
    (hgrid : ¬(|((pyRoundQ ((v - aMin) / res) : Rat)) - (v - aMin) / res|
      > epsilon)) :
    (let ctx : IVCtx := ⟨[(pfx ++ dk, .dict (rawT mnT mxT aMin aMax res))],
      [(nmin, .dict (entT dk "minT")), (nmax, .dict (entT dk "maxT"))],
      pfx, dev⟩
     let w : WireWrite :=
       ⟨dev, pfx ++ dk, .list [.float v, .float mxT], "NUMBER"⟩
     (setNumber ctx handler nmin (.float v) s).1 = .ok (handler w)
      ∧ (setNumber ctx handler nmin (.float v) s).2.calls =
          s.calls ++ [w]) := by
  have hstT : (PyVal.float res).pyTruthy = true := by
    simp [PyVal.pyTruthy, hres]
  have hne' : nmax ≠ nmin := Ne.symm hne
  constructor <;>
    simp [setNumber, setNumberTry, setNumberCheck, getItemIV, getValue,
      getValueBody, findDeviceEntry, processNumberValue, numberUnit,
      getCorrespondingValue, correspondingScan, scanCheck, tupleFirst,
      unpack5, entT, rawT, pdGet, dictGetD, dictGetKeyD, getItemStr,
      getItemZero, pyInB, pyLE, pyLT, pySub, pyDiv, pyAdd, pyRound, pyAbs,
      pyIntLike, pyStr, pyEqB, strLower, cacheInsert, finishWrite,
      hne, hne', hc1, hc2, hr1, hr2, hstT, hgrid, hres,
      PyVal.pyTruthy, PyVal.isNone, PyVal.isDict, PyVal.isFloat,
      PyVal.isNumeric, PyVal.isListOrTuple, PyVal.numQ, PyErr.caughtByGetValue]
  split <;> rfl

/-- C2, raw-snapshot fallback: when no sibling mapping entry exists, the
other bound is read from the raw record's `maxT` field. -/
theorem paired_write_rawfallback
    (handler : Handler) (pfx dev dk nmin : String)
    (mnT mxT aMin aMax res v : Rat) (s : IVState)
    (hc1 : s.cache nmin = Option.none)
    (hres : res ≠ 0)
    (hr1 : aMin ≤ v) (hr2 : v ≤ aMax / 2)
    (hgrid : ¬(|((pyRoundQ ((v - aMin) / res) : Rat)) - (v - aMin) / res|
      > epsilon)) :
    (let ctx : IVCtx := ⟨[(pfx ++ dk, .dict (rawT mnT mxT aMin aMax res))],
      [(nmin, .dict (entT dk "minT"))], pfx, dev⟩
     let w : WireWrite :=
       ⟨dev, pfx ++ dk, .list [.float v, .float mxT], "NUMBER"⟩
     (setNumber ctx handler nmin (.float v) s).1 = .ok (handler w)
      ∧ (setNumber ctx handler nmin (.float v) s).2.calls =
          s.calls ++ [w]) := by
  have hstT : (PyVal.float res).pyTruthy = true := by
    simp [PyVal.pyTruthy, hres]
  constructor <;>
    simp [setNumber, setNumberTry, setNumberCheck, getItemIV, getValue,
      getValueBody, findDeviceEntry, processNumberValue, numberUnit,
      getCorrespondingValue, correspondingScan, scanCheck, tupleFirst,
      unpack5, entT, rawT, pdGet, dictGetD, dictGetKeyD, getItemStr,
      getItemZero, pyInB, pyLE, pyLT, pySub, pyDiv, pyAdd, pyRound, pyAbs,
      pyIntLike, pyStr, pyEqB, strLower, cacheInsert, finishWrite,
      hc1, hr1, hr2, hstT, hgrid, hres,
      PyVal.pyTruthy, PyVal.isNone, PyVal.isDict, PyVal.isFloat,
      PyVal.isNumeric, PyVal.isListOrTuple, PyVal.numQ, PyErr.caughtByGetValue]
  split <;> rfl

/-- C2, absMax fallback: when neither a sibling mapping entry nor a raw
`maxT` field exists, the other bound falls back to the raw `absMax`. -/
theorem paired_write_absfallback
    (handler : Handler) (pfx dev dk nmin : String)
    (mnT aMin aMax res v : Rat) (s : IVState)
    (hc1 : s.cache nmin = Option.none)
    (hres : res ≠ 0)
    (hr1 : aMin ≤ v) (hr2 : v ≤ aMax / 2)
    (hgrid : ¬(|((pyRoundQ ((v - aMin) / res) : Rat)) - (v - aMin) / res|
      > epsilon)) :
    (let ctx : IVCtx := ⟨[(pfx ++ dk, .dict (rawTNoMax mnT aMin aMax res))],
      [(nmin, .dict (entT dk "minT"))], pfx, dev⟩
     let w : WireWrite :=
       ⟨dev, pfx ++ dk, .list [.float v, .float aMax], "NUMBER"⟩
     (setNumber ctx handler nmin (.float v) s).1 = .ok (handler w)
      ∧ (setNumber ctx handler nmin (.float v) s).2.calls =
          s.calls ++ [w]) := by
  have hstT : (PyVal.float res).pyTruthy = true := by
    simp [PyVal.pyTruthy, hres]
  constructor <;>
    simp [setNumber, setNumberTry, setNumberCheck, getItemIV, getValue,
      getValueBody, findDeviceEntry, processNumberValue, numberUnit,
      getCorrespondingValue, correspondingScan, scanCheck, tupleFirst,
      unpack5, entT, rawTNoMax, pdGet, dictGetD, dictGetKeyD, getItemStr,
      getItemZero, pyInB, pyLE, pyLT, pySub, pyDiv, pyAdd, pyRound, pyAbs,
      pyIntLike, pyStr, pyEqB, strLower, cacheInsert, finishWrite,
      hc1, hr1, hr2, hstT, hgrid, hres,
      PyVal.pyTruthy, PyVal.isNone, PyVal.isDict, PyVal.isFloat,
      PyVal.isNumeric, PyVal.isListOrTuple, PyVal.numQ, PyErr.caughtByGetValue]
  split <;> rfl

/-- C2, unresolvable sibling: with no sibling entry, no raw `maxT` and no
`absMax`, the write is rejected with no transport call. -/
theorem paired_write_unresolvable
    (handler : Handler) (pfx dev dk nmin : String)
    (mnT aMin res v : Rat) (s : IVState)
    (hc1 : s.cache nmin = Option.none)
    (hres : res ≠ 0)
    (hgrid : ¬(|((pyRoundQ ((v - aMin) / res) : Rat)) - (v - aMin) / res|
      > epsilon)) :
    (let ctx : IVCtx := ⟨[(pfx ++ dk, .dict (rawTBare mnT aMin res))],
      [(nmin, .dict (entT dk "minT"))], pfx, dev⟩
     (setNumber ctx handler nmin (.float v) s).1 = .ok (.bool false)
      ∧ (setNumber ctx handler nmin (.float v) s).2.calls = s.calls) := by
  have hstT : (PyVal.float res).pyTruthy = true := by
    simp [PyVal.pyTruthy, hres]
  constructor <;>
    simp [setNumber, setNumberTry, setNumberCheck, getItemIV, getValue,
      getValueBody, findDeviceEntry, processNumberValue, numberUnit,
      getCorrespondingValue, correspondingScan, scanCheck, tupleFirst,
      unpack5, entT, rawTBare, pdGet, dictGetD, dictGetKeyD, getItemStr,
      getItemZero, pyInB, pyLE, pyLT, pySub, pyDiv, pyAdd, pyRound, pyAbs,
      pyIntLike, pyStr, pyEqB, strLower, cacheInsert, finishWrite,
      hc1, hstT, hgrid, hres,
      PyVal.pyTruthy, PyVal.isNone, PyVal.isDict, PyVal.isFloat,
      PyVal.isNumeric, PyVal.isListOrTuple, PyVal.numQ, PyErr.caughtByGetValue]

/-- C2, maxT-write direction: writing the maxT entry resolves the sibling
minT current value and still submits the pair in `[minT, maxT]` order. -/
theorem paired_write_maxT
    (handler : Handler) (pfx dev dk nmin nmax : String)
    (mnT mxT aMin aMax res v : Rat) (s : IVState)
    (hne : nmin ≠ nmax)
    (hc1 : s.cache nmin = Option.none) (hc2 : s.cache nmax = Option.none)
    (hres : res ≠ 0)
    (hr1 : aMax / 2 + res ≤ v) (hr2 : v ≤ aMax)
    (hgrid : ¬(|((pyRoundQ ((v - (aMax / 2 + res)) / res) : Rat))
      - (v - (aMax / 2 + res)) / res| > epsilon)) :
    (let ctx : IVCtx := ⟨[(pfx ++ dk, .dict (rawT mnT mxT aMin aMax res))],
      [(nmin, .dict (entT dk "minT")), (nmax, .dict (entT dk "maxT"))],
      pfx, dev⟩
     let w : WireWrite :=
       ⟨dev, pfx ++ dk, .list [.float mnT, .float v], "NUMBER"⟩
     (setNumber ctx handler nmax (.float v) s).1 = .ok (handler w)
      ∧ (setNumber ctx handler nmax (.float v) s).2.calls =
          s.calls ++ [w]) := by
  have hstT : (PyVal.float res).pyTruthy = true := by
    simp [PyVal.pyTruthy, hres]
  have hne' : nmax ≠ nmin := Ne.symm hne
  constructor <;>
    simp [setNumber, setNumberTry, setNumberCheck, getItemIV, getValue,
      getValueBody, findDeviceEntry, processNumberValue, numberUnit,
      getCorrespondingValue, correspondingScan, scanCheck, tupleFirst,
      unpack5, entT, rawT, pdGet, dictGetD, dictGetKeyD, getItemStr,
      getItemZero, pyInB, pyLE, pyLT, pySub, pyDiv, pyAdd, pyRound, pyAbs,
      pyIntLike, pyStr, pyEqB, strLower, cacheInsert, finishWrite,
      hne, hne', hc1, hc2, hr1, hr2, hstT, hgrid, hres,
      PyVal.pyTruthy, PyVal.isNone, PyVal.isDict, PyVal.isFloat,
      PyVal.isNumeric, PyVal.isListOrTuple, PyVal.numQ, PyErr.caughtByGetValue]
  split <;> rfl

/-- C2: a successful paired-bound `set_number` resolves the sibling bound —
first by scanning the mapping for the entry sharing the device key with the
opposite selector, then by reading the sibling field from the raw record,
finally by falling back to `absMin`/`absMax` — and submits both bounds as
the ordered pair `[minT_value, maxT_value]` in one wire write with tag
`NUMBER`; when the sibling bound cannot be resolved the write is rejected
with no transport call.  The five conjuncts cover: mapping-scan hit,
raw-field fallback, `absMax` fallback, unresolvable rejection, and the
maxT-write direction (pair still ordered `[minT, maxT]`). -/
theorem paired_bound_write :
    (∀ (handler : Handler) (pfx dev dk nmin nmax : String)
      (mnT mxT aMin aMax res v : Rat) (s : IVState),
      nmin ≠ nmax →
      s.cache nmin = Option.none → s.cache nmax = Option.none →
      res ≠ 0 → aMin ≤ v → v ≤ aMax / 2 →
      ¬(|((pyRoundQ ((v - aMin) / res) : Rat)) - (v - aMin) / res|
        > epsilon) →
      (let ctx : IVCtx := ⟨[(pfx ++ dk, .dict (rawT mnT mxT aMin aMax res))],
        [(nmin, .dict (entT dk "minT")), (nmax, .dict (entT dk "maxT"))],
        pfx, dev⟩
       let w : WireWrite :=
         ⟨dev, pfx ++ dk, .list [.float v, .float mxT], "NUMBER"⟩
       (setNumber ctx handler nmin (.float v) s).1 = .ok (handler w)
        ∧ (setNumber ctx handler nmin (.float v) s).2.calls =
            s.calls ++ [w]))
    ∧ (∀ (handler : Handler) (pfx dev dk nmin : String)
      (mnT mxT aMin aMax res v : Rat) (s : IVState),
      s.cache nmin = Option.none →
      res ≠ 0 → aMin ≤ v → v ≤ aMax / 2 →
      ¬(|((pyRoundQ ((v - aMin) / res) : Rat)) - (v - aMin) / res|
        > epsilon) →
      (let ctx : IVCtx := ⟨[(pfx ++ dk, .dict (rawT mnT mxT aMin aMax res))],
        [(nmin, .dict (entT dk "minT"))], pfx, dev⟩
       let w : WireWrite :=
         ⟨dev, pfx ++ dk, .list [.float v, .float mxT], "NUMBER"⟩
       (setNumber ctx handler nmin (.float v) s).1 = .ok (handler w)
        ∧ (setNumber ctx handler nmin (.float v) s).2.calls =
            s.calls ++ [w]))
    ∧ (∀ (handler : Handler) (pfx dev dk nmin : String)
      (mnT aMin aMax res v : Rat) (s : IVState),
      s.cache nmin = Option.none →
      res ≠ 0 → aMin ≤ v → v ≤ aMax / 2 →
      ¬(|((pyRoundQ ((v - aMin) / res) : Rat)) - (v - aMin) / res|
        > epsilon) →
      (let ctx : IVCtx := ⟨[(pfx ++ dk, .dict (rawTNoMax mnT aMin aMax res))],
        [(nmin, .dict (entT dk "minT"))], pfx, dev⟩
       let w : WireWrite :=
         ⟨dev, pfx ++ dk, .list [.float v, .float aMax], "NUMBER"⟩
       (setNumber ctx handler nmin (.float v) s).1 = .ok (handler w)
        ∧ (setNumber ctx handler nmin (.float v) s).2.calls =
            s.calls ++ [w]))
    ∧ (∀ (handler : Handler) (pfx dev dk nmin : String)
      (mnT aMin res v : Rat) (s : IVState),
      s.cache nmin = Option.none →
      res ≠ 0 →
      ¬(|((pyRoundQ ((v - aMin) / res) : Rat)) - (v - aMin) / res|
        > epsilon) →
      (let ctx : IVCtx := ⟨[(pfx ++ dk, .dict (rawTBare mnT aMin res))],
        [(nmin, .dict (entT dk "minT"))], pfx, dev⟩
       (setNumber ctx handler nmin (.float v) s).1 = .ok (.bool false)
        ∧ (setNumber ctx handler nmin (.float v) s).2.calls = s.calls))
    ∧ (∀ (handler : Handler) (pfx dev dk nmin nmax : String)
      (mnT mxT aMin aMax res v : Rat) (s : IVState),
      nmin ≠ nmax →
      s.cache nmin = Option.none → s.cache nmax = Option.none →
      res ≠ 0 → aMax / 2 + res ≤ v → v ≤ aMax →
      ¬(|((pyRoundQ ((v - (aMax / 2 + res)) / res) : Rat))
        - (v - (aMax / 2 + res)) / res| > epsilon) →
      (let ctx : IVCtx := ⟨[(pfx ++ dk, .dict (rawT mnT mxT aMin aMax res))],
        [(nmin, .dict (entT dk "minT")), (nmax, .dict (entT dk "maxT"))],
        pfx, dev⟩
       let w : WireWrite :=
         ⟨dev, pfx ++ dk, .list [.float mnT, .float v], "NUMBER"⟩
       (setNumber ctx handler nmax (.float v) s).1 = .ok (handler w)
        ∧ (setNumber ctx handler nmax (.float v) s).2.calls =
            s.calls ++ [w])) :=
  ⟨fun handler pfx dev dk nmin nmax mnT mxT aMin aMax res v s
      hne hc1 hc2 hres hr1 hr2 hgrid =>
    paired_write_scan handler pfx dev dk nmin nmax mnT mxT aMin aMax res v s
      hne hc1 hc2 hres hr1 hr2 hgrid,
   fun handler pfx dev dk nmin mnT mxT aMin aMax res v s
      hc1 hres hr1 hr2 hgrid =>
    paired_write_rawfallback handler pfx dev dk nmin mnT mxT aMin aMax res v s
      hc1 hres hr1 hr2 hgrid,
   fun handler pfx dev dk nmin mnT aMin aMax res v s hc1 hres hr1 hr2 hgrid =>
    paired_write_absfallback handler pfx dev dk nmin mnT aMin aMax res v s
      hc1 hres hr1 hr2 hgrid,
   fun handler pfx dev dk nmin mnT aMin res v s hc1 hres hgrid =>
    paired_write_unresolvable handler pfx dev dk nmin mnT aMin res v s
      hc1 hres hgrid,
   fun handler pfx dev dk nmin nmax mnT mxT aMin aMax res v s
      hne hc1 hc2 hres hr1 hr2 hgrid =>
    paired_write_maxT handler pfx dev dk nmin nmax mnT mxT aMin aMax res v s
      hne hc1 hc2 hres hr1 hr2 hgrid⟩

/-- Witness for C2 at the spec's example: setting the minT entry to 6.2
while the sibling maxT entry reads 8.1 submits `[6.2, 8.1]` in one write. -/
theorem paired_bound_write_witness :
    (let ctx : IVCtx := ⟨[("P_wt", .dict (rawT 6.5 8.1 0 16 0.1))],
      [("temp_min", .dict (entT "wt" "minT")),
       ("temp_max", .dict (entT "wt" "maxT"))], "P_", "DEV"⟩
     let handler : Handler := fun _ => .bool true
     let s0 : IVState := ⟨fun _ => Option.none, [], 0⟩
     (setNumber ctx handler "temp_min" (.float 6.2) s0).1 = .ok (.bool true)
      ∧ (setNumber ctx handler "temp_min" (.float 6.2) s0).2.calls =
          [⟨"DEV", "P_wt", .list [.float 6.2, .float 8.1], "NUMBER"⟩]) := by
  have h := paired_bound_write.1 (fun _ => .bool true) "P_" "DEV" "wt"
    "temp_min" "temp_max" 6.5 8.1 0 16 0.1 6.2
    ⟨fun _ => Option.none, [], 0⟩
    (by decide) rfl rfl (by norm_num) (by norm_num) (by norm_num)
    (by norm_num [pyRoundQ, epsilon, abs_of_nonneg, abs_of_nonpos])
  exact ⟨h.1, h.2⟩

/-- Eviction frame of `set_switch`: a successful write pops exactly the
written key from the cache, a transport failure and a rejected (non-bool)
write evict nothing, and no other cached name ever changes. -/
theorem switch_write_frame
    (ctx : IVCtx) (handler : Handler) (key : String) (entry : PyDict)
    (s : IVState)
    (hmap : pdGet ctx.mapping key = some (.dict entry))
    (hty : pdGet entry "type" = some (.str "switch")) :
    (∀ b : Bool,
      (let w : WireWrite :=
        ⟨ctx.deviceId,
         ctx.pfix ++ pyStr ((pdGet entry "key").getD (.str key)),
         .str (if b then "O" else "F"), "STRING"⟩
       (setSwitch ctx handler key (.bool b) s).1 = .ok (handler w)
        ∧ (setSwitch ctx handler key (.bool b) s).2.calls = s.calls ++ [w]
        ∧ (setSwitch ctx handler key (.bool b) s).2.cache key =
            (if (handler w).pyTruthy then Option.none else s.cache key)
        ∧ ∀ n, n ≠ key →
            (setSwitch ctx handler key (.bool b) s).2.cache n = s.cache n))
    ∧ (∀ v : PyVal, v.isBool = false →
        setSwitch ctx handler key v s = (.ok (.bool false), s)) := by
  have hty' : (pdGet entry "type").getD PyVal.none = .str "switch" := by
    simp [hty]
  constructor
  · intro b
    refine ⟨?_, ?_, ?_, ?_⟩
    · cases b <;>
        simp [setSwitch, setSwitchTry, hmap, hty', dictGetD, pyEqB,
          PyVal.isBool, PyVal.pyTruthy, finishWrite]
    · cases b <;>
        simp [setSwitch, setSwitchTry, hmap, hty', dictGetD, pyEqB,
          PyVal.isBool, PyVal.pyTruthy, finishWrite] <;>
        (try (split <;> rfl))
    · cases b <;>
        simp [setSwitch, setSwitchTry, hmap, hty', dictGetD, pyEqB,
          PyVal.isBool, PyVal.pyTruthy, finishWrite] <;>
        (try (split <;> simp [cachePop]))
    · intro n hn
      cases b <;>
        simp [setSwitch, setSwitchTry, hmap, hty', dictGetD, pyEqB,
          PyVal.isBool, PyVal.pyTruthy, finishWrite] <;>
        (try (split <;> simp [cachePop, hn]))
  · intro v hv
    simp [setSwitch, setSwitchTry, hmap, hty', dictGetD, pyEqB, hv]

/-- Eviction frame of a paired `set_number` on a fully cached view: the
decode and the sibling lookup are cache hits, a successful write pops
exactly the WRITTEN name (the sibling entry stays cached), a transport
failure pops nothing, and a range-rejected write returns with the state
identical. -/
theorem number_paired_cached_frame
    (dd : PyDict) (handler : Handler) (pfx dev dk nmin nmax : String)
    (cvMin uvMin cvMax uvMax : PyVal) (mn1 mx1 st1 mn2 mx2 st2 : Rat)
    (s : IVState)
    (hne : nmin ≠ nmax)
    (hcmin : s.cache nmin =
      some (.tuple [cvMin, uvMin, .float mn1, .float mx1, .float st1]))
    (hcmax : s.cache nmax =
      some (.tuple [cvMax, uvMax, .float mn2, .float mx2, .float st2]))
    (hcv : cvMax.isNone = false)
    (hst : st1 ≠ 0) :
    (let ctx : IVCtx := ⟨dd,
      [(nmin, .dict (entT dk "minT")), (nmax, .dict (entT dk "maxT"))],
      pfx, dev⟩
     (∀ v : Rat, mn1 ≤ v → v ≤ mx1 →
      ¬(|((pyRoundQ ((v - mn1) / st1) : Rat)) - (v - mn1) / st1|
        > epsilon) →
      (let w : WireWrite :=
        ⟨dev, pfx ++ dk, .list [.float v, cvMax], "NUMBER"⟩
       (setNumber ctx handler nmin (.float v) s).1 = .ok (handler w)
        ∧ (setNumber ctx handler nmin (.float v) s).2.calls = s.calls ++ [w]
        ∧ (setNumber ctx handler nmin (.float v) s).2.cache nmin =
            (if (handler w).pyTruthy then Option.none else s.cache nmin)
        ∧ (setNumber ctx handler nmin (.float v) s).2.cache nmax =
            s.cache nmax
        ∧ ∀ n, n ≠ nmin →
            (setNumber ctx handler nmin (.float v) s).2.cache n = s.cache n))
     ∧ (∀ v : Rat, ¬(mn1 ≤ v ∧ v ≤ mx1) →
        setNumber ctx handler nmin (.float v) s = (.ok (.bool false), s))) := by
  have hstT : (PyVal.float st1).pyTruthy = true := by
    simp [PyVal.pyTruthy, hst]
  have hne' : nmax ≠ nmin := Ne.symm hne
  constructor
  · intro v hr1 hr2 hgrid
    refine ⟨?_, ?_, ?_, ?_, ?_⟩
    · simp [setNumber, setNumberTry, setNumberCheck, getItemIV,
        getCorrespondingValue, correspondingScan, scanCheck, tupleFirst,
        unpack5, entT, pdGet, dictGetD, pyLE, pyLT, pySub, pyDiv, pyRound,
        pyAbs, pyIntLike, pyStr, pyEqB, finishWrite,
        hne, hne', hcmin, hcmax, hcv, hr1, hr2, hst, hstT, hgrid,
        PyVal.pyTruthy, PyVal.isFloat, PyVal.numQ]
    · simp [setNumber, setNumberTry, setNumberCheck, getItemIV,
        getCorrespondingValue, correspondingScan, scanCheck, tupleFirst,
        unpack5, entT, pdGet, dictGetD, pyLE, pyLT, pySub, pyDiv, pyRound,
        pyAbs, pyIntLike, pyStr, pyEqB, finishWrite,
        hne, hne', hcmin, hcmax, hcv, hr1, hr2, hst, hstT, hgrid,
        PyVal.pyTruthy, PyVal.isFloat, PyVal.numQ]
      (try (split <;> rfl))
    · simp [setNumber, setNumberTry, setNumberCheck, getItemIV,
        getCorrespondingValue, correspondingScan, scanCheck, tupleFirst,
        unpack5, entT, pdGet, dictGetD, pyLE, pyLT, pySub, pyDiv, pyRound,
        pyAbs, pyIntLike, pyStr, pyEqB, finishWrite,
        hne, hne', hcmin, hcmax, hcv, hr1, hr2, hst, hstT, hgrid,
        PyVal.pyTruthy, PyVal.isFloat, PyVal.numQ]
      (try (split <;> simp [cachePop, hcmin]))
    · simp [setNumber, setNumberTry, setNumberCheck, getItemIV,
        getCorrespondingValue, correspondingScan, scanCheck, tupleFirst,
        unpack5, entT, pdGet, dictGetD, pyLE, pyLT, pySub, pyDiv, pyRound,
        pyAbs, pyIntLike, pyStr, pyEqB, finishWrite,
        hne, hne', hcmin, hcmax, hcv, hr1, hr2, hst, hstT, hgrid,
        PyVal.pyTruthy, PyVal.isFloat, PyVal.numQ]
      (try (split <;> simp [cachePop, hne', hcmax]))
    · intro n hn
      simp [setNumber, setNumberTry, setNumberCheck, getItemIV,
        getCorrespondingValue, correspondingScan, scanCheck, tupleFirst,
        unpack5, entT, pdGet, dictGetD, pyLE, pyLT, pySub, pyDiv, pyRound,
        pyAbs, pyIntLike, pyStr, pyEqB, finishWrite,
        hne, hne', hcmin, hcmax, hcv, hr1, hr2, hst, hstT, hgrid,
        PyVal.pyTruthy, PyVal.isFloat, PyVal.numQ]
      (try (split <;> simp [cachePop, hn]))
  · intro v hv
    by_cases h1 : mn1 ≤ v
    · have h2 : ¬ v ≤ mx1 := fun h2 => hv ⟨h1, h2⟩
      simp [setNumber, setNumberTry, setNumberCheck, getItemIV, unpack5,
        entT, pdGet, dictGetD, pyLE, pyEqB, hcmin, h1, h2,
        PyVal.isNone, PyVal.numQ]
    · simp [setNumber, setNumberTry, setNumberCheck, getItemIV, unpack5,
        entT, pdGet, dictGetD, pyLE, pyEqB, hcmin, h1,
        PyVal.isNone, PyVal.numQ]

/-- Eviction frame of `set_select`: a successful write pops exactly the
written name, a transport failure pops nothing, other cached names never
change, and an invalid proposed value is rejected with the state identical
and no transport call. -/
theorem select_write_frame
    (ctx : IVCtx) (handler : Handler) (s : IVState) (name dk : String)
    (entry : PyDict) (os cs : List (String × String))
    (idx label disp : String) (nidx : Int)
    (hmap : pdGet ctx.mapping name = some (.dict entry))
    (hty : pdGet entry "type" = some (.str "select"))
    (hkey : pdGet entry "key" = some (.str dk))
    (hopts : pdGet entry "options" = some (.dict (mapStrDict os)))
    (hcnv : pdGet entry "conversion" = some (.dict (mapStrDict cs)))
    (hlab : sGet os idx = some label)
    (hdisp : sGet cs label = some disp)
    (huniq : ∀ k l, (k, l) ∈ os → sGet cs l = some disp → k = idx)
    (hidx : parseInt idx = some nidx) :
    ((let w : WireWrite := ⟨ctx.deviceId, ctx.pfix ++ dk, .int nidx, "NUMBER"⟩
      (setSelect ctx handler name (.str disp) s).1 = .ok (handler w)
       ∧ (setSelect ctx handler name (.str disp) s).2.calls = s.calls ++ [w]
       ∧ (setSelect ctx handler name (.str disp) s).2.cache name =
           (if (handler w).pyTruthy then Option.none else s.cache name)
       ∧ ∀ n, n ≠ name →
           (setSelect ctx handler name (.str disp) s).2.cache n = s.cache n))
    ∧ (∀ bad : String,
        (os.map (fun p => PyVal.str ((sGet cs p.2).getD p.2))).any
          (fun x => pyEqB x (.str bad)) = false →
        setSelect ctx handler name (.str bad) s = (.ok (.bool false), s)) := by
  constructor
  · refine ⟨?_, ?_, ?_, ?_⟩
    · simp [setSelect, setSelectTry, resolveDeviceValue, dictGetD, dictItems,
        getItemStr, pyInB, pyStr, pyEqB, pyIntOfString,
        hmap, hty, hkey, hopts, hcnv, hidx,
        convertLabels_mapStrDict, mem_validValues hlab hdisp,
        findConvIndex_mapStrDict hlab hdisp huniq,
        PyVal.pyTruthy, PyVal.isDict, finishWrite]
    · simp [setSelect, setSelectTry, resolveDeviceValue, dictGetD, dictItems,
        getItemStr, pyInB, pyStr, pyEqB, pyIntOfString,
        hmap, hty, hkey, hopts, hcnv, hidx,
        convertLabels_mapStrDict, mem_validValues hlab hdisp,
        findConvIndex_mapStrDict hlab hdisp huniq,
        PyVal.pyTruthy, PyVal.isDict, finishWrite]
      (try (split <;> rfl))
    · simp [setSelect, setSelectTry, resolveDeviceValue, dictGetD, dictItems,
        getItemStr, pyInB, pyStr, pyEqB, pyIntOfString,
        hmap, hty, hkey, hopts, hcnv, hidx,
        convertLabels_mapStrDict, mem_validValues hlab hdisp,
        findConvIndex_mapStrDict hlab hdisp huniq,
        PyVal.pyTruthy, PyVal.isDict, finishWrite]
      (try (split <;> simp [cachePop]))
    · intro n hn
      simp [setSelect, setSelectTry, resolveDeviceValue, dictGetD, dictItems,
        getItemStr, pyInB, pyStr, pyEqB, pyIntOfString,
        hmap, hty, hkey, hopts, hcnv, hidx,
        convertLabels_mapStrDict, mem_validValues hlab hdisp,
        findConvIndex_mapStrDict hlab hdisp huniq,
        PyVal.pyTruthy, PyVal.isDict, finishWrite]
      (try (split <;> simp [cachePop, hn]))
  · intro bad hbad
    simp [setSelect, setSelectTry, dictGetD, dictItems, getItemStr, pyInB,
      pyStr, pyEqB, hmap, hty, hkey, hopts, hcnv,
      convertLabels_mapStrDict, hbad, PyVal.isDict]

/-- C7 (amended): across the three setters, a cache entry is evicted only
when the transport call is made and reports a truthy result, and a
successful write evicts exactly the WRITTEN logical name — in the paired
minT/maxT case the sibling entry is NOT evicted (it stays cached) — while
every other cached name survives unchanged; rejected writes return with the
state identical (on a view whose involved entries are already cached) and
make no transport call. -/
theorem cache_eviction_frame :
    (∀ (ctx : IVCtx) (handler : Handler) (key : String) (entry : PyDict)
      (s : IVState),
      pdGet ctx.mapping key = some (.dict entry) →
      pdGet entry "type" = some (.str "switch") →
      (∀ b : Bool,
        (let w : WireWrite :=
          ⟨ctx.deviceId,
           ctx.pfix ++ pyStr ((pdGet entry "key").getD (.str key)),
           .str (if b then "O" else "F"), "STRING"⟩
         (setSwitch ctx handler key (.bool b) s).1 = .ok (handler w)
          ∧ (setSwitch ctx handler key (.bool b) s).2.calls = s.calls ++ [w]
          ∧ (setSwitch ctx handler key (.bool b) s).2.cache key =
              (if (handler w).pyTruthy then Option.none else s.cache key)
          ∧ ∀ n, n ≠ key →
              (setSwitch ctx handler key (.bool b) s).2.cache n = s.cache n))
      ∧ (∀ v : PyVal, v.isBool = false →
          setSwitch ctx handler key v s = (.ok (.bool false), s)))
    ∧ (∀ (dd : PyDict) (handler : Handler) (pfx dev dk nmin nmax : String)
      (cvMin uvMin cvMax uvMax : PyVal) (mn1 mx1 st1 mn2 mx2 st2 : Rat)
      (s : IVState),
      nmin ≠ nmax →
      s.cache nmin =
        some (.tuple [cvMin, uvMin, .float mn1, .float mx1, .float st1]) →
      s.cache nmax =
        some (.tuple [cvMax, uvMax, .float mn2, .float mx2, .float st2]) →
      cvMax.isNone = false →
      st1 ≠ 0 →
      (let ctx : IVCtx := ⟨dd,
        [(nmin, .dict (entT dk "minT")), (nmax, .dict (entT dk "maxT"))],
        pfx, dev⟩
       (∀ v : Rat, mn1 ≤ v → v ≤ mx1 →
        ¬(|((pyRoundQ ((v - mn1) / st1) : Rat)) - (v - mn1) / st1|
          > epsilon) →
        (let w : WireWrite :=
          ⟨dev, pfx ++ dk, .list [.float v, cvMax], "NUMBER"⟩
         (setNumber ctx handler nmin (.float v) s).1 = .ok (handler w)
          ∧ (setNumber ctx handler nmin (.float v) s).2.calls =
              s.calls ++ [w]
          ∧ (setNumber ctx handler nmin (.float v) s).2.cache nmin =
              (if (handler w).pyTruthy then Option.none else s.cache nmin)
          ∧ (setNumber ctx handler nmin (.float v) s).2.cache nmax =
              s.cache nmax
          ∧ ∀ n, n ≠ nmin →
              (setNumber ctx handler nmin (.float v) s).2.cache n =
                s.cache n))
       ∧ (∀ v : Rat, ¬(mn1 ≤ v ∧ v ≤ mx1) →
          setNumber ctx handler nmin (.float v) s =
            (.ok (.bool false), s))))
    ∧ (∀ (ctx : IVCtx) (handler : Handler) (s : IVState) (name dk : String)
      (entry : PyDict) (os cs : List (String × String))
      (idx label disp : String) (nidx : Int),
      pdGet ctx.mapping name = some (.dict entry) →
      pdGet entry "type" = some (.str "select") →
      pdGet entry "key" = some (.str dk) →
      pdGet entry "options" = some (.dict (mapStrDict os)) →
      pdGet entry "conversion" = some (.dict (mapStrDict cs)) →
      sGet os idx = some label →
      sGet cs label = some disp →
      (∀ k l, (k, l) ∈ os → sGet cs l = some disp → k = idx) →
      parseInt idx = some nidx →
      ((let w : WireWrite :=
          ⟨ctx.deviceId, ctx.pfix ++ dk, .int nidx, "NUMBER"⟩
        (setSelect ctx handler name (.str disp) s).1 = .ok (handler w)
         ∧ (setSelect ctx handler name (.str disp) s).2.calls =
             s.calls ++ [w]
         ∧ (setSelect ctx handler name (.str disp) s).2.cache name =
             (if (handler w).pyTruthy then Option.none else s.cache name)
         ∧ ∀ n, n ≠ name →
             (setSelect ctx handler name (.str disp) s).2.cache n =
               s.cache n))
      ∧ (∀ bad : String,
          (os.map (fun p => PyVal.str ((sGet cs p.2).getD p.2))).any
            (fun x => pyEqB x (.str bad)) = false →
          setSelect ctx handler name (.str bad) s =
            (.ok (.bool false), s))) :=
  ⟨fun ctx handler key entry s hmap hty =>
    switch_write_frame ctx handler key entry s hmap hty,
   fun dd handler pfx dev dk nmin nmax cvMin uvMin cvMax uvMax
      mn1 mx1 st1 mn2 mx2 st2 s hne hcmin hcmax hcv hst =>
    number_paired_cached_frame dd handler pfx dev dk nmin nmax
      cvMin uvMin cvMax uvMax mn1 mx1 st1 mn2 mx2 st2 s
      hne hcmin hcmax hcv hst,
   fun ctx handler s name dk entry os cs idx label disp nidx
      hmap hty hkey hopts hcnv hlab hdisp huniq hidx =>
    select_write_frame ctx handler s name dk entry os cs idx label disp nidx
      hmap hty hkey hopts hcnv hlab hdisp huniq hidx⟩

/-- Witness for C7: a successful paired write evicts the written name only,
the sibling and unrelated names survive; an out-of-range write leaves the
state identical. -/
theorem cache_eviction_frame_witness :
    (let handler : Handler := fun _ => .bool true
     (setNumber ctxC7 handler "temp_min" (.float 6.2) sC7).1 =
        .ok (.bool true)
      ∧ (setNumber ctxC7 handler "temp_min" (.float 6.2) sC7).2.cache
          "temp_min" = Option.none
      ∧ (setNumber ctxC7 handler "temp_min" (.float 6.2) sC7).2.cache
          "temp_max" = some tmaxC7
      ∧ (setNumber ctxC7 handler "temp_min" (.float 6.2) sC7).2.cache
          "other" = Option.none
      ∧ setNumber ctxC7 handler "temp_min" (.float 9.5) sC7 =
          (.ok (.bool false), sC7)) := by
  have h := cache_eviction_frame.2.1 [] (fun _ => .bool true) "P_" "DEV"
    "wt" "temp_min" "temp_max" (.float 6.5) .none (.float 8.1) .none
    0 8 0.1 8.1 16 0.1 sC7 (by decide) rfl rfl rfl (by norm_num)
  have h1 := h.1 6.2 (by norm_num) (by norm_num)
    (by norm_num [pyRoundQ, epsilon, abs_of_nonneg, abs_of_nonpos])
  refine ⟨h1.1, ?_, ?_, ?_, h.2 9.5 (by norm_num)⟩
  · exact h1.2.2.1.trans rfl
  · exact h1.2.2.2.1.trans rfl
  · exact (h1.2.2.2.2 "other" (by decide)).trans rfl

/-- C7 counterexample: per the claim a successful paired write must evict
the sibling entry too, but after a successful minT write the sibling maxT
entry is still cached. -/
theorem cache_sibling_not_evicted_counterexample :
    (let handler : Handler := fun _ => .bool true
     (setNumber ctxC7 handler "temp_min" (.float 6.2) sC7).1 =
        .ok (.bool true)
      ∧ (setNumber ctxC7 handler "temp_min" (.float 6.2) sC7).2.cache
          "temp_max" ≠ Option.none) := by
  have h := number_paired_cached_frame [] (fun _ => .bool true) "P_" "DEV"
    "wt" "temp_min" "temp_max" (.float 6.5) .none (.float 8.1) .none
    0 8 0.1 8.1 16 0.1 sC7 (by decide) rfl rfl rfl (by norm_num)
  have h1 := h.1 6.2 (by norm_num) (by norm_num)
    (by norm_num [pyRoundQ, epsilon, abs_of_nonneg, abs_of_nonpos])
  refine ⟨h1.1, fun hcontra => ?_⟩
  have h2 := h1.2.2.2.1.symm.trans hcontra
  simp [sC7] at h2

/-- An `ok` result trivially raises nothing uncaught. -/
theorem caught_ok {α : Type} (a : α) : CaughtOnlyA (Except.ok a : PyM α) := by
  intro e he
  cases he

/-- `dict.get` raises only `AttributeError`. -/
theorem caught_dictGetD (v : PyVal) (k : String) (d : PyVal) :
    CaughtOnlyA (dictGetD v k d) := by
  intro e he
  cases v <;> simp [dictGetD] at he <;> simp [← he, PyErr.caughtByGetValue]

/-- `dict.get` with a value key raises only `AttributeError`/`TypeError`. -/
theorem caught_dictGetKeyD (v key d : PyVal) :
    CaughtOnlyA (dictGetKeyD v key d) := by
  intro e he
  cases v <;> simp [dictGetKeyD] at he <;>
    (try (cases key <;> simp [dictGetKeyD] at he)) <;>
    simp [← he, PyErr.caughtByGetValue]

/-- `.items()` raises only `AttributeError`. -/
theorem caught_dictItems (v : PyVal) : CaughtOnlyA (dictItems v) := by
  intro e he
  cases v <;> simp [dictItems] at he <;> simp [← he, PyErr.caughtByGetValue]

/-- String subscripting raises only `KeyError`/`TypeError`. -/
theorem caught_getItemStr (v : PyVal) (k : String) :
    CaughtOnlyA (getItemStr v k) := by
  intro e he
  cases v <;>
    first
      | (simp only [getItemStr] at he
         injection he with h1
         simp [← h1, PyErr.caughtByGetValue])
      | (rename_i kvs
         cases hp : pdGet kvs k with
         | some w => simp [getItemStr, hp] at he
         | none =>
           simp [getItemStr, hp] at he
           simp [← he, PyErr.caughtByGetValue])

/-- Value-keyed subscripting raises only `KeyError`/`TypeError`. -/
theorem caught_getItemKey (v key : PyVal) : CaughtOnlyA (getItemKey v key) := by
  intro e he
  cases v <;>
    first
      | (simp only [getItemKey] at he
         injection he with h1
         simp [← h1, PyErr.caughtByGetValue])
      | (rename_i kvs
         cases key with
         | str s =>
           cases hp : pdGet kvs s with
           | some w => simp [getItemKey, hp] at he
           | none =>
             simp [getItemKey, hp] at he
             simp [← he, PyErr.caughtByGetValue]
         | none =>
           simp [getItemKey] at he; simp [← he, PyErr.caughtByGetValue]
         | bool b =>
           simp [getItemKey] at he; simp [← he, PyErr.caughtByGetValue]
         | int n =>
           simp [getItemKey] at he; simp [← he, PyErr.caughtByGetValue]
         | float q =>
           simp [getItemKey] at he; simp [← he, PyErr.caughtByGetValue]
         | list xs =>
           simp [getItemKey] at he; simp [← he, PyErr.caughtByGetValue]
         | tuple xs =>
           simp [getItemKey] at he; simp [← he, PyErr.caughtByGetValue]
         | dict kvs2 =>
           simp [getItemKey] at he; simp [← he, PyErr.caughtByGetValue])

/-- The `in` operator raises only `TypeError`. -/
theorem caught_pyInB (item v : PyVal) : CaughtOnlyA (pyInB item v) := by
  intro e he
  cases v <;> simp [pyInB] at he <;>
    (try (cases item <;> simp [pyInB] at he)) <;>
    simp [← he, PyErr.caughtByGetValue]

/-- `.lower()` raises only `AttributeError`. -/
theorem caught_pyLower (v : PyVal) : CaughtOnlyA (pyLower v) := by
  intro e he
  cases v <;> simp [pyLower] at he <;> simp [← he, PyErr.caughtByGetValue]

/-- `v[0]` on a TRUTHY value raises only caught errors (a truthy sequence is
nonempty, so no `IndexError` escapes). -/
theorem caught_getItemZero_truthy {v : PyVal} (h : v.pyTruthy = true) :
    CaughtOnlyA (getItemZero v) := by
  intro e he
  cases v with
  | list xs =>
    cases xs with
    | nil => simp [PyVal.pyTruthy, List.isEmpty] at h
    | cons a l => simp [getItemZero] at he
  | tuple xs =>
    cases xs with
    | nil => simp [PyVal.pyTruthy, List.isEmpty] at h
    | cons a l => simp [getItemZero] at he
  | str s =>
    cases hd : s.data with
    | nil =>
      exfalso
      have : s = "" := by
        cases s
        simp at hd
        simp [hd]
      simp [this, PyVal.pyTruthy] at h
    | cons c l => simp [getItemZero, hd] at he
  | dict kvs =>
    simp [getItemZero] at he
    simp [← he, PyErr.caughtByGetValue]
  | none => simp [getItemZero] at he; simp [← he, PyErr.caughtByGetValue]
  | bool b => simp [getItemZero] at he; simp [← he, PyErr.caughtByGetValue]
  | int n => simp [getItemZero] at he; simp [← he, PyErr.caughtByGetValue]
  | float q => simp [getItemZero] at he; simp [← he, PyErr.caughtByGetValue]

/-- Division by the literal 2 of a numeric value never raises. -/
theorem caught_pyDiv_two {v : PyVal} (h : v.isNumeric = true) :
    CaughtOnlyA (pyDiv v (.int 2)) := by
  intro e he
  cases v <;> simp [PyVal.isNumeric] at h <;>
    simp [pyDiv, PyVal.numQ] at he

/-- Addition of two numeric values never raises. -/
theorem caught_pyAdd_num {a b : PyVal} (ha : a.isNumeric = true)
    (hb : b.isNumeric = true) : CaughtOnlyA (pyAdd a b) := by
  intro e he
  cases a <;> simp [PyVal.isNumeric] at ha <;>
    cases b <;> simp [PyVal.isNumeric] at hb <;>
    simp [pyAdd, pyIntLike, PyVal.numQ] at he

/-- `v[0]` under the number-unit guard raises only caught errors. -/
theorem caught_getItemZero_lt {v : PyVal}
    (h : (v.isListOrTuple && v.pyTruthy) = true) :
    CaughtOnlyA (getItemZero v) :=
  caught_getItemZero_truthy (by
    rcases Bool.and_eq_true_iff.1 h with ⟨_, h2⟩
    exact h2)

/-- The conversion snippet raises only caught errors. -/
theorem caught_applyConversion (value attributes : PyVal) :
    CaughtOnlyA (applyConversion value attributes) := by
  intro e he
  unfold applyConversion at he
  repeat (any_goals split at he)
  all_goals
    first
      | (simp at he
         done)
      | (injection he with h1
         subst h1
         solve_by_elim [caught_dictGetD, caught_dictGetKeyD,
           caught_dictItems, caught_getItemStr, caught_getItemKey,
           caught_pyInB, caught_pyLower, caught_getItemZero_truthy,
           caught_getItemZero_lt])
      | solve_by_elim [caught_dictGetD, caught_dictGetKeyD, caught_dictItems,
          caught_getItemStr, caught_getItemKey, caught_pyInB,
          caught_pyLower, caught_getItemZero_truthy, caught_getItemZero_lt]

/-- Bridge for the sensor-unit guard: the else-branch hypothesis of
`if !units.pyTruthy` gives truthiness. -/
theorem caught_getItemZero_guard {v : PyVal}
    (h : ¬((!v.pyTruthy) = true)) : CaughtOnlyA (getItemZero v) :=
  caught_getItemZero_truthy (by simpa using h)

/-- Bridge for the number-unit guard. -/
theorem caught_getItemZero_guard2 {v : PyVal}
    (h : ¬((!(v.isListOrTuple && v.pyTruthy)) = true)) :
    CaughtOnlyA (getItemZero v) :=
  caught_getItemZero_truthy (by
    have h2 : (v.isListOrTuple && v.pyTruthy) = true := by simpa using h
    exact (Bool.and_eq_true_iff.1 h2).2)

/-- Division by two under the minT bound-splitting guard. -/
theorem caught_pyDiv_two_guardL {x : PyVal} {c : Bool}
    (h : (c && x.isNumeric) = true) : CaughtOnlyA (pyDiv x (.int 2)) :=
  caught_pyDiv_two (Bool.and_eq_true_iff.1 h).2

/-- Division by two under the maxT bound-splitting guard. -/
theorem caught_pyDiv_two_guardL2 {x r : PyVal} {c : Bool}
    (h : ((c && x.isNumeric) && r.isNumeric) = true) :
    CaughtOnlyA (pyDiv x (.int 2)) :=
  caught_pyDiv_two (Bool.and_eq_true_iff.1 (Bool.and_eq_true_iff.1 h).1).2

/-- A successful true-division always yields a number. -/
theorem pyDiv_ok_numeric {a b v : PyVal} (hd : pyDiv a b = .ok v) :
    v.isNumeric = true := by
  unfold pyDiv at hd
  repeat (any_goals split at hd)
  all_goals (try (injection hd with h1))
  all_goals (try (subst h1))
  all_goals simp_all [PyVal.isNumeric]

/-- The `absMax / 2 + resolution` addition raises nothing uncaught. -/
theorem caught_pyAdd_after_div {a c r h : PyVal} {g : Bool}
    (hd : pyDiv a c = .ok h) (hg : (g && r.isNumeric) = true) :
    CaughtOnlyA (pyAdd h r) :=
  caught_pyAdd_num (pyDiv_ok_numeric hd) (Bool.and_eq_true_iff.1 hg).2

/-- `_find_device_entry` raises only caught errors. -/
theorem caught_findDeviceEntry (ctx : IVCtx) (name : String) :
    CaughtOnlyA (findDeviceEntry ctx name) := by
  intro e he
  simp only [findDeviceEntry] at he
  repeat (any_goals split at he)
  all_goals
    first
      | (simp at he
         done)
      | (injection he with h1
         subst h1
         solve_by_elim [caught_dictGetD])
      | solve_by_elim [caught_dictGetD]

/-- The sensor unit computation raises only caught errors. -/
theorem caught_sensorUnit (raw : PyVal) : CaughtOnlyA (sensorUnit raw) := by
  intro e he
  unfold sensorUnit at he
  repeat (any_goals split at he)
  all_goals
    first
      | (simp at he
         done)
      | (injection he with h1
         subst h1
         solve_by_elim [caught_dictGetD, caught_pyLower,
           caught_getItemZero_guard])
      | solve_by_elim [caught_dictGetD, caught_pyLower,
          caught_getItemZero_guard]

/-- `_process_sensor_value` raises only caught errors. -/
theorem caught_processSensorValue (raw attributes : PyVal) :
    CaughtOnlyA (processSensorValue raw attributes) := by
  intro e he
  unfold processSensorValue at he
  repeat (any_goals split at he)
  all_goals
    first
      | (simp at he
         done)
      | (injection he with h1
         subst h1
         solve_by_elim [caught_dictGetD, caught_applyConversion,
           caught_sensorUnit])
      | solve_by_elim [caught_dictGetD, caught_applyConversion,
          caught_sensorUnit]

/-- `_process_binary_sensor_value` raises only caught errors. -/
theorem caught_processBinarySensorValue (raw attributes : PyVal) :
    CaughtOnlyA (processBinarySensorValue raw attributes) := by
  intro e he
  unfold processBinarySensorValue at he
  repeat (any_goals split at he)
  all_goals
    first
      | (simp at he
         done)
      | (injection he with h1
         subst h1
         solve_by_elim [caught_dictGetD, caught_applyConversion])
      | solve_by_elim [caught_dictGetD, caught_applyConversion]

/-- `_process_switch_value` raises only caught errors. -/
theorem caught_processSwitchValue (raw : PyVal) :
    CaughtOnlyA (processSwitchValue raw) := by
  intro e he
  unfold processSwitchValue at he
  repeat (any_goals split at he)
  all_goals
    first
      | (simp at he
         done)
      | (injection he with h1
         subst h1
         solve_by_elim [caught_dictGetD])
      | solve_by_elim [caught_dictGetD]

/-- The number unit computation raises only caught errors. -/
theorem caught_numberUnit (raw : PyVal) : CaughtOnlyA (numberUnit raw) := by
  intro e he
  simp only [numberUnit] at he
  repeat (any_goals split at he)
  all_goals
    first
      | (simp at he
         done)
      | (injection he with h1
         subst h1
         solve_by_elim [caught_dictGetD, caught_getItemZero_guard2])
      | solve_by_elim [caught_dictGetD, caught_getItemZero_guard2]

/-- The minT/maxT bound-splitting expression raises only caught errors. -/
theorem caught_boundsExpr (value_key abs_min0 abs_max0 resolution : PyVal) :
    CaughtOnlyA (α := PyVal × PyVal)
      (if pyEqB value_key (.str "minT") && abs_max0.isNumeric then
        match pyDiv abs_max0 (.int 2) with
        | .error e => .error e
        | .ok h => .ok (abs_min0, h)
      else if pyEqB value_key (.str "maxT") && abs_max0.isNumeric
          && resolution.isNumeric then
        match pyDiv abs_max0 (.int 2) with
        | .error e => .error e
        | .ok h =>
          match pyAdd h resolution with
          | .error e => .error e
          | .ok m => .ok (m, abs_max0)
      else .ok (abs_min0, abs_max0)) := by
  intro e he
  repeat (any_goals split at he)
  all_goals
    first
      | (simp at he
         done)
      | (injection he with h1
         subst h1
         solve_by_elim [caught_pyDiv_two_guardL, caught_pyDiv_two_guardL2,
           caught_pyAdd_after_div])

/-- `_process_number_value` raises only caught errors. -/
theorem caught_processNumberValue (ctx : IVCtx) (raw : PyVal)
    (name : String) : CaughtOnlyA (processNumberValue ctx raw name) := by
  intro e he
  simp only [processNumberValue] at he
  repeat (any_goals split at he)
  all_goals
    first
      | (simp at he
         done)
      | (injection he with h1
         subst h1
         solve_by_elim [caught_dictGetD, caught_dictGetKeyD,
           caught_numberUnit, caught_boundsExpr])
      | solve_by_elim [caught_dictGetD, caught_dictGetKeyD,
          caught_numberUnit, caught_boundsExpr]

/-- `_process_select_value` raises only caught errors. -/
theorem caught_processSelectValue (raw attributes : PyVal) :
    CaughtOnlyA (processSelectValue raw attributes) := by
  intro e he
  unfold processSelectValue at he
  repeat (any_goals split at he)
  all_goals
    first
      | (simp at he
         done)
      | (injection he with h1
         subst h1
         solve_by_elim [caught_dictGetD, caught_getItemStr,
           caught_getItemKey, caught_pyInB])
      | solve_by_elim [caught_dictGetD, caught_getItemStr,
          caught_getItemKey, caught_pyInB]

/-- The whole `_get_value` body raises only caught errors. -/
theorem caught_getValueBody (ctx : IVCtx) (name : String) :
    CaughtOnlyA (getValueBody ctx name) := by
  intro e he
  simp only [getValueBody] at he
  repeat (any_goals split at he)
  all_goals
    first
      | (simp at he
         done)
      | (injection he with h1
         subst h1
         solve_by_elim [caught_dictGetD, caught_findDeviceEntry,
           caught_processSensorValue, caught_processBinarySensorValue,
           caught_processSwitchValue, caught_processNumberValue,
           caught_processSelectValue])
      | solve_by_elim [caught_dictGetD, caught_findDeviceEntry,
          caught_processSensorValue, caught_processBinarySensorValue,
          caught_processSwitchValue, caught_processNumberValue,
          caught_processSelectValue]

/-- C8 (amended): the decode path never propagates an exception — for EVERY
mapping, prefix, raw snapshot and logical name, `_get_value` returns a value
(all internal Key/Type/Attribute errors are caught; no uncaught error kind
such as IndexError is reachable).  Missing mapping entries, missing raw
keys and unknown kinds yield the null (absent) result; but a sensor-kind or
number-kind entry over a malformed (non-dict) raw record yields a TUPLE of
nulls — `(None, None)` resp. `(None, None, None, None, None)` — rather than
the single null signal. -/
theorem decode_never_raises :
    (∀ (ctx : IVCtx) (name : String), ∃ v, getValue ctx name = .ok v)
    ∧ (∀ (ctx : IVCtx) (name : String),
        pdGet ctx.mapping name = Option.none →
        getValue ctx name = .ok .none)
    ∧ (∀ (ctx : IVCtx) (name dk : String) (entry : PyDict),
        pdGet ctx.mapping name = some (.dict entry) →
        pdGet entry "key" = some (.str dk) →
        pdGet ctx.deviceData (ctx.pfix ++ dk) = Option.none →
        getValue ctx name = .ok .none)
    ∧ (∀ (ctx : IVCtx) (name dk ty : String) (entry : PyDict) (raw : PyVal),
        pdGet ctx.mapping name = some (.dict entry) →
        pdGet entry "type" = some (.str ty) →
        pdGet entry "key" = some (.str dk) →
        pdGet ctx.deviceData (ctx.pfix ++ dk) = some raw →
        raw.isNone = false →
        ty ≠ "" → ty ≠ "sensor" → ty ≠ "binary_sensor" → ty ≠ "switch" →
        ty ≠ "number" → ty ≠ "select" →
        getValue ctx name = .ok .none)
    ∧ (∀ (ctx : IVCtx) (name dk junk : String) (entry : PyDict),
        pdGet ctx.mapping name = some (.dict entry) →
        pdGet entry "type" = some (.str "sensor") →
        pdGet entry "key" = some (.str dk) →
        pdGet ctx.deviceData (ctx.pfix ++ dk) = some (.str junk) →
        junk ≠ "" →
        getValue ctx name = .ok (.tuple [.none, .none]))
    ∧ (∀ (ctx : IVCtx) (name dk junk : String) (entry : PyDict),
        pdGet ctx.mapping name = some (.dict entry) →
        pdGet entry "type" = some (.str "number") →
        pdGet entry "key" = some (.str dk) →
        pdGet ctx.deviceData (ctx.pfix ++ dk) = some (.str junk) →
        junk ≠ "" →
        getValue ctx name =
          .ok (.tuple [.none, .none, .none, .none, .none])) := by
  refine ⟨?_, ?_, ?_, ?_, ?_, ?_⟩
  · intro ctx name
    cases hb : getValueBody ctx name with
    | ok v => exact ⟨v, by simp [getValue, hb]⟩
    | error e =>
      have hc := caught_getValueBody ctx name e hb
      exact ⟨.none, by simp [getValue, hb, hc]⟩
  · intro ctx name hmap
    simp [getValue, getValueBody, hmap, PyVal.pyTruthy]
  · intro ctx name dk entry hmap hkey hdata
    have hne := pdGet_isEmpty hkey
    simp [getValue, getValueBody, findDeviceEntry, dictGetD, pyStr,
      hmap, hkey, hdata, hne, PyVal.pyTruthy]
  · intro ctx name dk ty entry raw hmap hty hkey hdata hraw h0 h1 h2 h3 h4 h5
    have hne := pdGet_isEmpty hkey
    simp [getValue, getValueBody, findDeviceEntry, dictGetD, pyStr, pyEqB,
      hmap, hty, hkey, hdata, hraw, hne, h0, h1, h2, h3, h4, h5,
      PyVal.pyTruthy]
  · intro ctx name dk junk entry hmap hty hkey hdata hjunk
    have hne := pdGet_isEmpty hkey
    simp [getValue, getValueBody, findDeviceEntry, processSensorValue,
      dictGetD, pyStr, pyEqB, hmap, hty, hkey, hdata, hjunk, hne,
      PyVal.pyTruthy, PyVal.isDict]
  · intro ctx name dk junk entry hmap hty hkey hdata hjunk
    have hne := pdGet_isEmpty hkey
    simp [getValue, getValueBody, findDeviceEntry, processNumberValue,
      dictGetD, pyStr, pyEqB, hmap, hty, hkey, hdata, hjunk, hne,
      PyVal.pyTruthy, PyVal.isDict]

/-- Witness for C8 at the fixture. -/
theorem decode_never_raises_witness :
    getValue ctxC8 "s1" = .ok (.tuple [.none, .none])
      ∧ getValue ctxC8 "n1" = .ok (.tuple [.none, .none, .none, .none, .none])
      ∧ getValue ctxC8 "u1" = .ok .none
      ∧ getValue ctxC8 "m1" = .ok .none
      ∧ getValue ctxC8 "absent" = .ok .none := by
  refine ⟨?_, ?_, ?_, ?_, ?_⟩
  · exact decode_never_raises.2.2.2.2.1 ctxC8 "s1" "w1" "oops"
      [("type", .str "sensor"), ("key", .str "w1")]
      rfl rfl rfl rfl (by decide)
  · exact decode_never_raises.2.2.2.2.2 ctxC8 "n1" "w2" "oops"
      [("type", .str "number"), ("key", .str "w2")]
      rfl rfl rfl rfl (by decide)
  · exact decode_never_raises.2.2.2.1 ctxC8 "u1" "w3" "frob"
      [("type", .str "frob"), ("key", .str "w3")] (.int 5)
      rfl rfl rfl rfl rfl (by decide) (by decide) (by decide) (by decide)
      (by decide) (by decide)
  · exact decode_never_raises.2.2.1 ctxC8 "m1" "nowhere"
      [("type", .str "sensor"), ("key", .str "nowhere")]
      rfl rfl rfl
  · exact decode_never_raises.2.1 ctxC8 "absent" rfl

/-- C8 counterexample: a sensor entry over a malformed (string) raw record
decodes to the tuple `(None, None)`, which is NOT the single null (absent)
signal the claim requires for every failure mode. -/
theorem decode_malformed_sensor_counterexample :
    getValue ctxC8 "s1" = .ok (.tuple [.none, .none])
      ∧ PyVal.tuple [.none, .none] ≠ PyVal.none := by
  exact ⟨by rfl, fun h => PyVal.noConfusion h⟩

end Pooldose
